import Mathlib

set_option autoImplicit false

/-!
# Verification of the terraform-provider-ziti data-mapping layer

A shallow embedding of the bidirectional structural data-mapping core of the
`terraform-provider-ziti` repository: the Terraform framework value model
(`types.String` / `types.Int32` / `types.Bool` / `types.List` / `types.Object`),
the Go DTO structures for the host.v1 config (`HostConfigDTO` and its nested
DTOs), and the conversion functions from
`internal/provider/resource_ziti_host_config.go` and
`internal/provider/utils.go`:

* `JsonStructToObject` (reflection-driven struct-to-map, instantiated per DTO),
* `GenericFromObject` (JSON marshal/unmarshal of a map into a DTO,
  instantiated per DTO),
* `AttributesToNativeTypes` / `NativeBasicTypedAttributesToTerraform`
  (the native-value bridge),
* `convertKeysToCamel` / `convertKeysToSnake` (the name-casing converter,
  backed by the `strcase` library, modelled on the identifier alphabet),
* `ConvertToZitiResourceModel` and `ToHostConfigDTO` (the host-config entity
  conversions).

Go machine integers (`int32`, `int`) are modelled as `Int`; no arithmetic that
could overflow occurs in this layer (values are only moved, compared with `0`,
and serialized). Go maps (`map[string]interface{}`,
`map[string]attr.Value`, ...) are modelled as association lists
`List (String × _)` with the insertion order the Go code produces; all
consumers access them by key lookup, so ordering is not observable downstream.
-/

namespace Ziti

/-- State of a Terraform framework value (`attr.Value`): null, unknown, or a
known value. The zero Go value of `types.String`/`types.Int32`/... has the
null state. -/
inductive TFOpt (α : Type) where
  | null : TFOpt α
  | unknown : TFOpt α
  | known : α → TFOpt α
deriving DecidableEq, Repr

/-- A Go slice value: either the nil slice or a non-nil slice holding a list
of elements (`.elems []` is the allocated empty slice, distinct from `.nilS`).
`reflect.Value.IsZero` is true exactly for the nil slice, `len` is 0 for both
`.nilS` and `.elems []`, and `encoding/json` marshals the nil slice as `null`
but a non-nil slice as an array. -/
inductive GoSlice (α : Type) where
  | nilS : GoSlice α
  | elems : List α → GoSlice α
deriving DecidableEq, Repr

namespace GoSlice

/-- The elements of a Go slice (`range` iterates nothing over a nil slice). -/
def toList {α : Type} : GoSlice α → List α
  | .nilS => []
  | .elems xs => xs

/-- Go `len` of a slice. -/
def length {α : Type} (s : GoSlice α) : Nat := s.toList.length

/-- Go `reflect.Value.IsZero` on a slice value: true exactly for nil. -/
def isZero {α : Type} : GoSlice α → Bool
  | .nilS => true
  | .elems _ => false

end GoSlice

/-- Models building a Go slice by starting from `var s []T` (the nil slice)
and appending one element per loop iteration: the result is the nil slice
exactly when no element was appended. -/
def goSliceOfAppends {α : Type} (xs : List α) : GoSlice α :=
  match xs with
  | [] => .nilS
  | xs => .elems xs

/-- `HostConfigAllowedPortsDTO` (resource_ziti_host_config.go): fields `Low`
and `High` are non-pointer `int32` with tags `json:"low,omitempty"` /
`json:"high,omitempty"`. -/
structure HostConfigAllowedPortsDTO where
  low : Int
  high : Int
deriving DecidableEq, Repr

/-- `ListenOptionsDTO`: all fields are pointers with `,omitempty` tags
(`bindUsingEdgeIdentity`, `connectTimeout`, `cost`, `maxConnections`,
`precedence`). -/
structure ListenOptionsDTO where
  bindUsingEdgeIdentity : Option Bool
  connectTimeout : Option String
  cost : Option Int
  maxConnections : Option Int
  precedence : Option String
deriving DecidableEq, Repr

/-- `CheckActionDTO`: `Trigger`/`Duration`/`Action` are `*string` without
omitempty, `ConsecutiveEvents` is `*int32` with `json:"consecutiveEvents,omitempty"`. -/
structure CheckActionDTO where
  trigger : Option String
  duration : Option String
  consecutiveEvents : Option Int
  action : Option String
deriving DecidableEq, Repr

/-- `HTTPCheckDTO`: pointer fields tagged `url`, `method`, `body,omitempty`,
`expectStatus,omitempty`, `expectInBody,omitempty`, `interval`, `timeout`,
`actions` (a `*[]CheckActionDTO`). -/
structure HTTPCheckDTO where
  url : Option String
  method : Option String
  body : Option String
  expectStatus : Option Int
  expectInBody : Option String
  interval : Option String
  timeout : Option String
  actions : Option (GoSlice CheckActionDTO)
deriving DecidableEq, Repr

/-- `PortCheckDTO`: pointer fields tagged `address`, `interval`, `timeout`,
`actions` (a `*[]CheckActionDTO`). -/
structure PortCheckDTO where
  address : Option String
  interval : Option String
  timeout : Option String
  actions : Option (GoSlice CheckActionDTO)
deriving DecidableEq, Repr

/-- `HostConfigDTO` (resource_ziti_host_config.go, lines 530-544): every field
is a pointer with an `,omitempty` json tag, in this declaration order. -/
structure HostConfigDTO where
  address : Option String
  port : Option Int
  protocol : Option String
  forwardProtocol : Option Bool
  forwardPort : Option Bool
  forwardAddress : Option Bool
  allowedProtocols : Option (GoSlice String)
  allowedAddresses : Option (GoSlice String)
  allowedSourceAddresses : Option (GoSlice String)
  allowedPortRanges : Option (GoSlice HostConfigAllowedPortsDTO)
  listenOptions : Option ListenOptionsDTO
  httpChecks : Option (GoSlice HTTPCheckDTO)
  portChecks : Option (GoSlice PortCheckDTO)
deriving DecidableEq, Repr

/-- The `TestStruct` used by the repository's unit tests
(`TestJsonStructToObject`): `Name string` (tag `name`), `Age int` (tag `age`;
note: Go `int`, reflect kind `Int`, not `Int32`), `IsEmployed bool`
(tag `is_employed`), `Address *string` (tag `address,omitempty`). -/
structure TestStruct where
  name : String
  age : Int
  isEmployed : Bool
  address : Option String
deriving DecidableEq, Repr

/-- A Go `interface{}` value as it can occur in the string-keyed generic maps
of this mapping layer: nil, basic values, pointers to basic values, the DTO
slice values stored by the struct-to-map reflector, and nested maps. -/
inductive GoVal where
  | nil : GoVal
  | str : String → GoVal
  | int32 : Int → GoVal
  | int : Int → GoVal
  | bool : Bool → GoVal
  | ptrStr : Option String → GoVal
  | ptrInt32 : Option Int → GoVal
  | ptrBool : Option Bool → GoVal
  | strSlice : GoSlice String → GoVal
  | portsSlice : GoSlice HostConfigAllowedPortsDTO → GoVal
  | actionsSlice : GoSlice CheckActionDTO → GoVal
  | httpChecksSlice : GoSlice HTTPCheckDTO → GoVal
  | portChecksSlice : GoSlice PortCheckDTO → GoVal
  | obj : List (String × GoVal) → GoVal

/-- A Terraform framework attribute type (`attr.Type`) as used by this
provider: the three basic types plus list and object types. -/
inductive TFType where
  | string : TFType
  | int32 : TFType
  | bool : TFType
  | list : TFType → TFType
  | object : List (String × TFType) → TFType

/-- A Terraform framework attribute value (`attr.Value`) as used by this
provider: tagged basic values and composite list/object values, each carrying
its element/attribute types and a null/unknown/known state. -/
inductive TFValue where
  | str : TFOpt String → TFValue
  | int32 : TFOpt Int → TFValue
  | bool : TFOpt Bool → TFValue
  | list : TFType → TFOpt (List TFValue) → TFValue
  | obj : List (String × TFType) → TFOpt (List (String × TFValue)) → TFValue

/-- A `types.List` value: element type plus null/unknown/known state. -/
structure TFList where
  elemType : TFType
  state : TFOpt (List TFValue)

/-- A `types.Object` value: attribute types plus null/unknown/known state. -/
structure TFObject where
  attrTypes : List (String × TFType)
  state : TFOpt (List (String × TFValue))

/-- `types.ListNull(elemType)`. -/
def listNull (t : TFType) : TFList := ⟨t, .null⟩

/-- `types.ObjectNull(attrTypes)`. -/
def objectNull (tys : List (String × TFType)) : TFObject := ⟨tys, .null⟩

/-- `types.List.Elements()`: the element slice; nil (hence empty) for a null
or unknown list. -/
def TFList.elements (l : TFList) : List TFValue :=
  match l.state with
  | .known xs => xs
  | _ => []

/-- `types.Object.Attributes()`: the attribute map; nil (hence empty) for a
null or unknown object. -/
def TFObject.attributes (o : TFObject) : List (String × TFValue) :=
  match o.state with
  | .known m => m
  | _ => []

/-- View a `TFObject` as an `attr.Value`. -/
def TFObject.toValue (o : TFObject) : TFValue := .obj o.attrTypes o.state

/-- View a `TFList` as an `attr.Value`. -/
def TFList.toValue (l : TFList) : TFValue := .list l.elemType l.state

/-- `types.String.ValueString()`: the known value, or `""` for null/unknown. -/
def valueString : TFOpt String → String
  | .known s => s
  | _ => ""

/-- `types.Int32.ValueInt32()`: the known value, or `0` for null/unknown. -/
def valueInt32 : TFOpt Int → Int
  | .known n => n
  | _ => 0

/-- `types.Bool.ValueBool()`: the known value, or `false` for null/unknown. -/
def valueBool : TFOpt Bool → Bool
  | .known b => b
  | _ => false

/-- `types.String.ValueStringPointer()`: nil exactly when null (an unknown
value yields a pointer to the zero string). -/
def valueStringPointer : TFOpt String → Option String
  | .null => none
  | .unknown => some ""
  | .known s => some s

/-- `types.Int32.ValueInt32Pointer()`: nil exactly when null. -/
def valueInt32Pointer : TFOpt Int → Option Int
  | .null => none
  | .unknown => some 0
  | .known n => some n

/-- `types.Bool.ValueBoolPointer()`: nil exactly when null. -/
def valueBoolPointer : TFOpt Bool → Option Bool
  | .null => none
  | .unknown => some false
  | .known b => some b

/-- `types.StringPointerValue`: null for a nil pointer, known otherwise. -/
def stringPointerValue : Option String → TFOpt String
  | none => .null
  | some s => .known s

/-- `types.Int32PointerValue`: null for a nil pointer, known otherwise. -/
def int32PointerValue : Option Int → TFOpt Int
  | none => .null
  | some n => .known n

/-- `types.BoolPointerValue`: null for a nil pointer, known otherwise. -/
def boolPointerValue : Option Bool → TFOpt Bool
  | none => .null
  | some b => .known b

/-! ## Name-casing converter (strcase model)

The repository delegates key casing to `github.com/iancoleman/strcase`
(`strcase.ToLowerCamel`, `strcase.ToSnake`). We model those two library
functions on the alphabet actually used by this provider's keys: ASCII
letters and underscores (every schema attribute name and json tag in the
host-config resource is made of lowercase ASCII words). -/

/-- The lowercase/uppercase ASCII letter pairs. -/
def casePairs : List (Char × Char) :=
  [('a', 'A'), ('b', 'B'), ('c', 'C'), ('d', 'D'), ('e', 'E'), ('f', 'F'),
   ('g', 'G'), ('h', 'H'), ('i', 'I'), ('j', 'J'), ('k', 'K'), ('l', 'L'),
   ('m', 'M'), ('n', 'N'), ('o', 'O'), ('p', 'P'), ('q', 'Q'), ('r', 'R'),
   ('s', 'S'), ('t', 'T'), ('u', 'U'), ('v', 'V'), ('w', 'W'), ('x', 'X'),
   ('y', 'Y'), ('z', 'Z')]

/-- Uppercase-to-lowercase ASCII letter pairs. -/
def downPairs : List (Char × Char) := casePairs.map (fun p => (p.2, p.1))

/-- Whether a character is a lowercase ASCII letter. -/
def isLowerAlpha (c : Char) : Bool := (casePairs.lookup c).isSome

/-- Whether a character is an uppercase ASCII letter. -/
def isUpperAlpha (c : Char) : Bool := (downPairs.lookup c).isSome

/-- Uppercase an ASCII letter (identity elsewhere). -/
def upChar (c : Char) : Char := (casePairs.lookup c).getD c

/-- Lowercase an ASCII letter (identity elsewhere). -/
def downChar (c : Char) : Char := (downPairs.lookup c).getD c

/-- Tail of `strcase.ToLowerCamel` on the identifier alphabet: drop each
underscore and uppercase the letter following it. -/
def toLowerCamelChars : List Char → List Char
  | [] => []
  | c :: rest =>
    if c = '_' then
      match rest with
      | [] => ['_']
      | d :: rest2 => upChar d :: toLowerCamelChars rest2
    else c :: toLowerCamelChars rest

/-- Model of `strcase.ToLowerCamel` on the identifier alphabet: the leading
character is lowercased, every underscore is dropped and the letter after it
uppercased. -/
def toLowerCamel (s : String) : String :=
  match s.toList with
  | [] => ""
  | c :: rest => String.mk (downChar c :: toLowerCamelChars rest)

/-- Tail of `strcase.ToSnake` on the identifier alphabet: insert an
underscore before each uppercase letter and lowercase it. -/
def toSnakeChars : List Char → List Char
  | [] => []
  | c :: rest =>
    if isUpperAlpha c then '_' :: downChar c :: toSnakeChars rest
    else c :: toSnakeChars rest

/-- Model of `strcase.ToSnake` on the identifier alphabet (for keys starting
with a lowercase letter, as all keys of this provider do). -/
def toSnake (s : String) : String := String.mk (toSnakeChars s.toList)

/-- `convertKeysToCamel` (utils.go / resource_ziti_host_config.go): rebuild
the map with every key rewritten by `strcase.ToLowerCamel`, values untouched. -/
def convertKeysToCamel {α : Type} (m : List (String × α)) : List (String × α) :=
  m.map (fun kv => (toLowerCamel kv.1, kv.2))

/-- `convertKeysToSnake`: rebuild the map with every key rewritten by
`strcase.ToSnake`, values untouched. -/
def convertKeysToSnake {α : Type} (m : List (String × α)) : List (String × α) :=
  m.map (fun kv => (toSnake kv.1, kv.2))

/-! ## Schema type descriptors

The package-level `types.ObjectType` shape singletons of
resource_ziti_host_config.go. -/

/-- Attribute types of `AllowedPortRangeModel`. -/
def allowedPortRangeAttrTypes : List (String × TFType) :=
  [("low", .int32), ("high", .int32)]

/-- The `AllowedPortRangeModel` object type. -/
def AllowedPortRangeModel : TFType := .object allowedPortRangeAttrTypes

/-- Attribute types of `ListenOptionsModel`. -/
def listenOptionsAttrTypes : List (String × TFType) :=
  [("bind_using_edge_identity", .bool), ("connect_timeout", .string),
   ("cost", .int32), ("max_connections", .int32), ("precedence", .string)]

/-- The `ListenOptionsModel` object type. -/
def ListenOptionsModel : TFType := .object listenOptionsAttrTypes

/-- Attribute types of `CheckActionModel`. -/
def checkActionAttrTypes : List (String × TFType) :=
  [("trigger", .string), ("duration", .string), ("action", .string),
   ("consecutive_events", .int32)]

/-- The `CheckActionModel` object type. -/
def CheckActionModel : TFType := .object checkActionAttrTypes

/-- Attribute types of `PortCheckModel`. -/
def portCheckAttrTypes : List (String × TFType) :=
  [("address", .string), ("interval", .string), ("timeout", .string),
   ("actions", .list CheckActionModel)]

/-- The `PortCheckModel` object type. -/
def PortCheckModel : TFType := .object portCheckAttrTypes

/-- Attribute types of `HTTPCheckModel`. -/
def httpCheckAttrTypes : List (String × TFType) :=
  [("url", .string), ("method", .string), ("body", .string),
   ("expect_status", .int32), ("expect_in_body", .string),
   ("interval", .string), ("timeout", .string),
   ("actions", .list CheckActionModel)]

/-- The `HTTPCheckModel` object type. -/
def HTTPCheckModel : TFType := .object httpCheckAttrTypes

/-! ## Native-value bridge -/

/-- `AttributesToNativeTypes` (utils.go 97-110): for each attribute, if it is
a `types.String` store `ValueString()` (which is `""` for null/unknown), if a
`types.Int32` store `ValueInt32()` (`0` for null/unknown), if a `types.Bool`
store `ValueBool()` (`false` for null/unknown); attributes of any other
dynamic type (lists, objects) are skipped. -/
def attributesToNativeTypes (attrs : List (String × TFValue)) :
    List (String × GoVal) :=
  attrs.filterMap (fun kv =>
    match kv.2 with
    | .str v => some (kv.1, .str (valueString v))
    | .int32 v => some (kv.1, .int32 (valueInt32 v))
    | .bool v => some (kv.1, .bool (valueBool v))
    | _ => none)

/-- The `types.StringType` branch of `NativeBasicTypedAttributesToTerraform`
(utils.go 117-126): nil becomes the null value, a `string` or `*string`
is wrapped, anything else is only logged — no entry is produced. -/
def nbtatString (value : Option GoVal) (name : String) : Option (String × TFValue) :=
  match value with
  | none => some (name, .str .null)
  | some .nil => some (name, .str .null)
  | some (.str s) => some (name, .str (.known s))
  | some (.ptrStr p) => some (name, .str (stringPointerValue p))
  | some _ => none

/-- The `types.Int32Type` branch (utils.go 127-136). -/
def nbtatInt32 (value : Option GoVal) (name : String) : Option (String × TFValue) :=
  match value with
  | none => some (name, .int32 .null)
  | some .nil => some (name, .int32 .null)
  | some (.int32 n) => some (name, .int32 (.known n))
  | some (.ptrInt32 p) => some (name, .int32 (int32PointerValue p))
  | some _ => none

/-- The `types.BoolType` branch (utils.go 137-147). -/
def nbtatBool (value : Option GoVal) (name : String) : Option (String × TFValue) :=
  match value with
  | none => some (name, .bool .null)
  | some .nil => some (name, .bool .null)
  | some (.bool b) => some (name, .bool (.known b))
  | some (.ptrBool p) => some (name, .bool (boolPointerValue p))
  | some _ => none

/-- `NativeBasicTypedAttributesToTerraform` (utils.go 112-153): for each
target name/type pair, look the native value up (a missing key reads as the
nil interface) and dispatch on the three basic target types; target types
other than string/int32/bool add nothing. -/
def nativeBasicTypedAttributesToTerraform (attrs : List (String × GoVal))
    (attrTypes : List (String × TFType)) : List (String × TFValue) :=
  attrTypes.filterMap (fun kt =>
    let value := attrs.lookup kt.1
    match kt.2 with
    | .string => nbtatString value kt.1
    | .int32 => nbtatInt32 value kt.1
    | .bool => nbtatBool value kt.1
    | _ => none)

/-! ## Struct-to-map reflector (`JsonStructToObject`)

`JsonStructToObject(ctx, s, makeZeroNil, ignoreZero)` walks the struct's
fields by reflection. The generic loop body is instantiated below once per
field kind and once per DTO type. For each field with a json tag:

* a nil pointer field emits `key ↦ nil` (or is skipped when `ignoreZero`);
* a non-nil pointer is dereferenced;
* `isEmptyValue := field.IsZero() && field.Kind() != reflect.Int32` — note
  the `Int32` exemption;
* `isEmptySlice := field.Kind() == reflect.Slice && field.Len() == 0`;
* with `makeZeroNil`, an empty value or empty slice is emitted as nil;
* with `ignoreZero`, an empty value or empty slice is skipped entirely;
* a struct field is then recursed into, overwriting any nil collapse. -/

/-- Loop body for a `*string` field (kind `String`, so `IsZero` means the
empty string and the `Int32` exemption does not apply). -/
def jsonFieldPtrStr (key : String) (v : Option String)
    (makeZeroNil ignoreZero : Bool) : List (String × GoVal) :=
  match v with
  | none => if ignoreZero then [] else [(key, .nil)]
  | some s =>
    let isEmptyValue := s == ""
    let fieldValue : GoVal := if makeZeroNil && isEmptyValue then .nil else .str s
    if ignoreZero && isEmptyValue then [] else [(key, fieldValue)]

/-- Loop body for a `*int32` field: its kind is `Int32`, so `isEmptyValue`
is always false and the dereferenced value is always emitted. -/
def jsonFieldPtrInt32 (key : String) (v : Option Int)
    (makeZeroNil ignoreZero : Bool) : List (String × GoVal) :=
  match v with
  | none => if ignoreZero then [] else [(key, .nil)]
  | some n =>
    let _ := makeZeroNil
    [(key, .int32 n)]

/-- Loop body for a `*bool` field (kind `Bool`: `IsZero` means `false`). -/
def jsonFieldPtrBool (key : String) (v : Option Bool)
    (makeZeroNil ignoreZero : Bool) : List (String × GoVal) :=
  match v with
  | none => if ignoreZero then [] else [(key, .nil)]
  | some b =>
    let isEmptyValue := b == false
    let fieldValue : GoVal := if makeZeroNil && isEmptyValue then .nil else .bool b
    if ignoreZero && isEmptyValue then [] else [(key, fieldValue)]

/-- Loop body for a `*[]T` field. After dereferencing, `IsZero` holds for the
nil slice and `isEmptySlice` for length 0; the two sequential nil-collapses of
the Go code amount to collapsing on their disjunction. `embed` injects the Go
slice into `GoVal`. -/
def jsonFieldPtrSlice {α : Type} (key : String) (v : Option (GoSlice α))
    (embed : GoSlice α → GoVal) (makeZeroNil ignoreZero : Bool) :
    List (String × GoVal) :=
  match v with
  | none => if ignoreZero then [] else [(key, .nil)]
  | some sl =>
    let isEmptyValue := sl.isZero
    let isEmptySlice := sl.length == 0
    let fieldValue : GoVal :=
      if makeZeroNil && (isEmptyValue || isEmptySlice) then .nil else embed sl
    if ignoreZero && (isEmptyValue || isEmptySlice) then [] else [(key, fieldValue)]

/-- Loop body for a non-pointer `string` field (`TestStruct.Name`). -/
def jsonFieldStr (key : String) (s : String) (makeZeroNil ignoreZero : Bool) :
    List (String × GoVal) :=
  let isEmptyValue := s == ""
  let fieldValue : GoVal := if makeZeroNil && isEmptyValue then .nil else .str s
  if ignoreZero && isEmptyValue then [] else [(key, fieldValue)]

/-- Loop body for a non-pointer Go `int` field (`TestStruct.Age`): its
reflect kind is `Int`, not `Int32`, so the `Int32` exemption does NOT apply
and a zero value counts as empty. -/
def jsonFieldInt (key : String) (n : Int) (makeZeroNil ignoreZero : Bool) :
    List (String × GoVal) :=
  let isEmptyValue := n == 0
  let fieldValue : GoVal := if makeZeroNil && isEmptyValue then .nil else .int n
  if ignoreZero && isEmptyValue then [] else [(key, fieldValue)]

/-- Loop body for a non-pointer `bool` field (`TestStruct.IsEmployed`). -/
def jsonFieldBool (key : String) (b : Bool) (makeZeroNil ignoreZero : Bool) :
    List (String × GoVal) :=
  let isEmptyValue := b == false
  let fieldValue : GoVal := if makeZeroNil && isEmptyValue then .nil else .bool b
  if ignoreZero && isEmptyValue then [] else [(key, fieldValue)]

/-- Loop body for a non-pointer `int32` field
(`HostConfigAllowedPortsDTO.Low/High`): kind `Int32`, never empty, always
emitted. -/
def jsonFieldInt32 (key : String) (n : Int)
    (makeZeroNil ignoreZero : Bool) : List (String × GoVal) :=
  let _ := makeZeroNil
  let _ := ignoreZero
  [(key, .int32 n)]

/-- Go `reflect.Value.IsZero` on a `ListenOptionsDTO` value: all fields are
pointers, so the struct is zero when every field is nil. -/
def listenOptionsIsZero (lo : ListenOptionsDTO) : Bool :=
  lo.bindUsingEdgeIdentity.isNone && lo.connectTimeout.isNone &&
  lo.cost.isNone && lo.maxConnections.isNone && lo.precedence.isNone

/-- `JsonStructToObject` instantiated at `ListenOptionsDTO` (field order
of the struct declaration). -/
def jsonStructToObject_ListenOptions (lo : ListenOptionsDTO)
    (makeZeroNil ignoreZero : Bool) : List (String × GoVal) :=
  jsonFieldPtrBool "bindUsingEdgeIdentity" lo.bindUsingEdgeIdentity makeZeroNil ignoreZero ++
  jsonFieldPtrStr "connectTimeout" lo.connectTimeout makeZeroNil ignoreZero ++
  jsonFieldPtrInt32 "cost" lo.cost makeZeroNil ignoreZero ++
  jsonFieldPtrInt32 "maxConnections" lo.maxConnections makeZeroNil ignoreZero ++
  jsonFieldPtrStr "precedence" lo.precedence makeZeroNil ignoreZero

/-- Loop body for the `*ListenOptionsDTO` field of `HostConfigDTO`: after the
zero checks the nested-struct branch recurses and overwrites any collapsed
value with the recursed map, so only the `ignoreZero` skip is observable. -/
def jsonFieldPtrListenOptions (key : String) (v : Option ListenOptionsDTO)
    (makeZeroNil ignoreZero : Bool) : List (String × GoVal) :=
  match v with
  | none => if ignoreZero then [] else [(key, .nil)]
  | some lo =>
    let isEmptyValue := listenOptionsIsZero lo
    if ignoreZero && isEmptyValue then []
    else [(key, .obj (jsonStructToObject_ListenOptions lo makeZeroNil ignoreZero))]

/-- `JsonStructToObject` instantiated at `CheckActionDTO`. -/
def jsonStructToObject_CheckAction (a : CheckActionDTO)
    (makeZeroNil ignoreZero : Bool) : List (String × GoVal) :=
  jsonFieldPtrStr "trigger" a.trigger makeZeroNil ignoreZero ++
  jsonFieldPtrStr "duration" a.duration makeZeroNil ignoreZero ++
  jsonFieldPtrInt32 "consecutiveEvents" a.consecutiveEvents makeZeroNil ignoreZero ++
  jsonFieldPtrStr "action" a.action makeZeroNil ignoreZero

/-- `JsonStructToObject` instantiated at `HTTPCheckDTO`. -/
def jsonStructToObject_HTTPCheck (h : HTTPCheckDTO)
    (makeZeroNil ignoreZero : Bool) : List (String × GoVal) :=
  jsonFieldPtrStr "url" h.url makeZeroNil ignoreZero ++
  jsonFieldPtrStr "method" h.method makeZeroNil ignoreZero ++
  jsonFieldPtrStr "body" h.body makeZeroNil ignoreZero ++
  jsonFieldPtrInt32 "expectStatus" h.expectStatus makeZeroNil ignoreZero ++
  jsonFieldPtrStr "expectInBody" h.expectInBody makeZeroNil ignoreZero ++
  jsonFieldPtrStr "interval" h.interval makeZeroNil ignoreZero ++
  jsonFieldPtrStr "timeout" h.timeout makeZeroNil ignoreZero ++
  jsonFieldPtrSlice "actions" h.actions GoVal.actionsSlice makeZeroNil ignoreZero

/-- `JsonStructToObject` instantiated at `PortCheckDTO`. -/
def jsonStructToObject_PortCheck (p : PortCheckDTO)
    (makeZeroNil ignoreZero : Bool) : List (String × GoVal) :=
  jsonFieldPtrStr "address" p.address makeZeroNil ignoreZero ++
  jsonFieldPtrStr "interval" p.interval makeZeroNil ignoreZero ++
  jsonFieldPtrStr "timeout" p.timeout makeZeroNil ignoreZero ++
  jsonFieldPtrSlice "actions" p.actions GoVal.actionsSlice makeZeroNil ignoreZero

/-- `JsonStructToObject` instantiated at `HostConfigAllowedPortsDTO`. -/
def jsonStructToObject_AllowedPorts (r : HostConfigAllowedPortsDTO)
    (makeZeroNil ignoreZero : Bool) : List (String × GoVal) :=
  jsonFieldInt32 "low" r.low makeZeroNil ignoreZero ++
  jsonFieldInt32 "high" r.high makeZeroNil ignoreZero

/-- `JsonStructToObject` instantiated at `HostConfigDTO` (field order of the
struct declaration). -/
def jsonStructToObject_HostConfig (dto : HostConfigDTO)
    (makeZeroNil ignoreZero : Bool) : List (String × GoVal) :=
  jsonFieldPtrStr "address" dto.address makeZeroNil ignoreZero ++
  jsonFieldPtrInt32 "port" dto.port makeZeroNil ignoreZero ++
  jsonFieldPtrStr "protocol" dto.protocol makeZeroNil ignoreZero ++
  jsonFieldPtrBool "forwardProtocol" dto.forwardProtocol makeZeroNil ignoreZero ++
  jsonFieldPtrBool "forwardPort" dto.forwardPort makeZeroNil ignoreZero ++
  jsonFieldPtrBool "forwardAddress" dto.forwardAddress makeZeroNil ignoreZero ++
  jsonFieldPtrSlice "allowedProtocols" dto.allowedProtocols GoVal.strSlice makeZeroNil ignoreZero ++
  jsonFieldPtrSlice "allowedAddresses" dto.allowedAddresses GoVal.strSlice makeZeroNil ignoreZero ++
  jsonFieldPtrSlice "allowedSourceAddresses" dto.allowedSourceAddresses GoVal.strSlice makeZeroNil ignoreZero ++
  jsonFieldPtrSlice "allowedPortRanges" dto.allowedPortRanges GoVal.portsSlice makeZeroNil ignoreZero ++
  jsonFieldPtrListenOptions "listenOptions" dto.listenOptions makeZeroNil ignoreZero ++
  jsonFieldPtrSlice "httpChecks" dto.httpChecks GoVal.httpChecksSlice makeZeroNil ignoreZero ++
  jsonFieldPtrSlice "portChecks" dto.portChecks GoVal.portChecksSlice makeZeroNil ignoreZero

/-- `JsonStructToObject` instantiated at the unit tests' `TestStruct`. -/
def jsonStructToObject_TestStruct (t : TestStruct)
    (makeZeroNil ignoreZero : Bool) : List (String × GoVal) :=
  jsonFieldStr "name" t.name makeZeroNil ignoreZero ++
  jsonFieldInt "age" t.age makeZeroNil ignoreZero ++
  jsonFieldBool "is_employed" t.isEmployed makeZeroNil ignoreZero ++
  jsonFieldPtrStr "address" t.address makeZeroNil ignoreZero

/-! ## Map-to-struct materializer (`GenericFromObject`)

`GenericFromObject(mapData, &dto)` is `json.Marshal(mapData)` followed by
`json.Unmarshal` into the dto; every call site passes a freshly zero-valued
dto. The decoders below compose the two steps per target field type:

* marshalling: `nil` ↦ JSON null; strings/numbers/booleans ↦ themselves; a
  pointer ↦ its pointee (nil pointer ↦ null); a nil Go slice ↦ null, a
  non-nil slice ↦ an array whose elements are marshalled with their own json
  tags; a nested map ↦ an object;
* unmarshalling into a pointer field: JSON null sets the pointer to nil, an
  absent key leaves it nil, a matching value allocates and sets it, and a
  type-mismatched value leaves the field untouched (the resulting error is
  ignored by every call site);
* unmarshalling into a non-pointer field: null and absent keys are no-ops
  (the field keeps its zero value). -/

/-- Decode a marshalled map value into a `*string` field. -/
def decodeStrPtr : Option GoVal → Option String
  | some (.str s) => some s
  | some (.ptrStr p) => p
  | _ => none

/-- Decode a marshalled map value into a `*int32` field (both Go `int32` and
Go `int` marshal to a JSON number). -/
def decodeInt32Ptr : Option GoVal → Option Int
  | some (.int32 n) => some n
  | some (.int n) => some n
  | some (.ptrInt32 p) => p
  | _ => none

/-- Decode a marshalled map value into a `*bool` field. -/
def decodeBoolPtr : Option GoVal → Option Bool
  | some (.bool b) => some b
  | some (.ptrBool p) => p
  | _ => none

/-- Decode a marshalled map value into a non-pointer `int32` field (zero
stays on null/absent/mismatch). -/
def decodeInt32Plain : Option GoVal → Int
  | some (.int32 n) => n
  | some (.int n) => n
  | some (.ptrInt32 (some n)) => n
  | _ => 0

/-- Decode a marshalled map value into a non-pointer `string` field. -/
def decodeStrPlain : Option GoVal → String
  | some (.str s) => s
  | some (.ptrStr (some s)) => s
  | _ => ""

/-- Decode a marshalled map value into a non-pointer `bool` field. -/
def decodeBoolPlain : Option GoVal → Bool
  | some (.bool b) => b
  | some (.ptrBool (some b)) => b
  | _ => false

/-- JSON marshal/unmarshal roundtrip on a `HostConfigAllowedPortsDTO` slice
element: `low`/`high` are non-pointer `int32` with `,omitempty`, so a zero is
omitted when marshalling and restored as zero when unmarshalling — the
identity. -/
def jsonRT_allowedPorts (r : HostConfigAllowedPortsDTO) : HostConfigAllowedPortsDTO := r

/-- JSON marshal/unmarshal roundtrip on a `CheckActionDTO` slice element: all
fields are pointers (nil ↦ null or omitted ↦ nil; value ↦ value), so the
roundtrip is the identity. -/
def jsonRT_checkAction (a : CheckActionDTO) : CheckActionDTO := a

/-- JSON marshal/unmarshal roundtrip on a `*[]CheckActionDTO` field inside a
marshalled check: a pointer to the nil slice marshals to null and
unmarshals to a nil pointer; otherwise the elements roundtrip. -/
def jsonRT_actions : Option (GoSlice CheckActionDTO) → Option (GoSlice CheckActionDTO)
  | some .nilS => none
  | some (.elems xs) => some (.elems (xs.map jsonRT_checkAction))
  | none => none

/-- JSON marshal/unmarshal roundtrip on a `PortCheckDTO` slice element. -/
def jsonRT_portCheck (p : PortCheckDTO) : PortCheckDTO :=
  { p with actions := jsonRT_actions p.actions }

/-- JSON marshal/unmarshal roundtrip on an `HTTPCheckDTO` slice element. -/
def jsonRT_httpCheck (h : HTTPCheckDTO) : HTTPCheckDTO :=
  { h with actions := jsonRT_actions h.actions }

/-- Decode a marshalled map value into a `*[]string` field: a stored nil
slice marshalled to null, so the pointer comes back nil. -/
def decodeStrSlicePtr : Option GoVal → Option (GoSlice String)
  | some (.strSlice .nilS) => none
  | some (.strSlice (.elems xs)) => some (.elems xs)
  | _ => none

/-- Decode a marshalled map value into a `*[]HostConfigAllowedPortsDTO`
field. -/
def decodePortsSlicePtr : Option GoVal → Option (GoSlice HostConfigAllowedPortsDTO)
  | some (.portsSlice .nilS) => none
  | some (.portsSlice (.elems xs)) => some (.elems (xs.map jsonRT_allowedPorts))
  | _ => none

/-- Decode a marshalled map value into a `*[]CheckActionDTO` field. -/
def decodeActionsSlicePtr : Option GoVal → Option (GoSlice CheckActionDTO)
  | some (.actionsSlice .nilS) => none
  | some (.actionsSlice (.elems xs)) => some (.elems (xs.map jsonRT_checkAction))
  | _ => none

/-- Decode a marshalled map value into a `*[]HTTPCheckDTO` field. -/
def decodeHttpChecksSlicePtr : Option GoVal → Option (GoSlice HTTPCheckDTO)
  | some (.httpChecksSlice .nilS) => none
  | some (.httpChecksSlice (.elems xs)) => some (.elems (xs.map jsonRT_httpCheck))
  | _ => none

/-- Decode a marshalled map value into a `*[]PortCheckDTO` field. -/
def decodePortChecksSlicePtr : Option GoVal → Option (GoSlice PortCheckDTO)
  | some (.portChecksSlice .nilS) => none
  | some (.portChecksSlice (.elems xs)) => some (.elems (xs.map jsonRT_portCheck))
  | _ => none

/-- `GenericFromObject` into a fresh `ListenOptionsDTO`, routing by json
tags. -/
def genericFromObject_ListenOptions (m : List (String × GoVal)) : ListenOptionsDTO :=
  { bindUsingEdgeIdentity := decodeBoolPtr (m.lookup "bindUsingEdgeIdentity")
    connectTimeout := decodeStrPtr (m.lookup "connectTimeout")
    cost := decodeInt32Ptr (m.lookup "cost")
    maxConnections := decodeInt32Ptr (m.lookup "maxConnections")
    precedence := decodeStrPtr (m.lookup "precedence") }

/-- Decode a marshalled map value into the `*ListenOptionsDTO` field: a
nested map marshals to a JSON object, which allocates and fills the struct. -/
def decodeListenOptionsPtr : Option GoVal → Option ListenOptionsDTO
  | some (.obj m) => some (genericFromObject_ListenOptions m)
  | _ => none

/-- `GenericFromObject` into a fresh `CheckActionDTO`. -/
def genericFromObject_CheckAction (m : List (String × GoVal)) : CheckActionDTO :=
  { trigger := decodeStrPtr (m.lookup "trigger")
    duration := decodeStrPtr (m.lookup "duration")
    consecutiveEvents := decodeInt32Ptr (m.lookup "consecutiveEvents")
    action := decodeStrPtr (m.lookup "action") }

/-- `GenericFromObject` into a fresh `PortCheckDTO` (the maps fed to it by
this provider never carry an `actions` key, which therefore decodes to nil). -/
def genericFromObject_PortCheck (m : List (String × GoVal)) : PortCheckDTO :=
  { address := decodeStrPtr (m.lookup "address")
    interval := decodeStrPtr (m.lookup "interval")
    timeout := decodeStrPtr (m.lookup "timeout")
    actions := decodeActionsSlicePtr (m.lookup "actions") }

/-- `GenericFromObject` into a fresh `HTTPCheckDTO`. -/
def genericFromObject_HTTPCheck (m : List (String × GoVal)) : HTTPCheckDTO :=
  { url := decodeStrPtr (m.lookup "url")
    method := decodeStrPtr (m.lookup "method")
    body := decodeStrPtr (m.lookup "body")
    expectStatus := decodeInt32Ptr (m.lookup "expectStatus")
    expectInBody := decodeStrPtr (m.lookup "expectInBody")
    interval := decodeStrPtr (m.lookup "interval")
    timeout := decodeStrPtr (m.lookup "timeout")
    actions := decodeActionsSlicePtr (m.lookup "actions") }

/-- `GenericFromObject` into a fresh `HostConfigAllowedPortsDTO` (non-pointer
`int32` fields). -/
def genericFromObject_AllowedPorts (m : List (String × GoVal)) : HostConfigAllowedPortsDTO :=
  { low := decodeInt32Plain (m.lookup "low")
    high := decodeInt32Plain (m.lookup "high") }

/-- `GenericFromObject` into a fresh `HostConfigDTO`. -/
def genericFromObject_HostConfig (m : List (String × GoVal)) : HostConfigDTO :=
  { address := decodeStrPtr (m.lookup "address")
    port := decodeInt32Ptr (m.lookup "port")
    protocol := decodeStrPtr (m.lookup "protocol")
    forwardProtocol := decodeBoolPtr (m.lookup "forwardProtocol")
    forwardPort := decodeBoolPtr (m.lookup "forwardPort")
    forwardAddress := decodeBoolPtr (m.lookup "forwardAddress")
    allowedProtocols := decodeStrSlicePtr (m.lookup "allowedProtocols")
    allowedAddresses := decodeStrSlicePtr (m.lookup "allowedAddresses")
    allowedSourceAddresses := decodeStrSlicePtr (m.lookup "allowedSourceAddresses")
    allowedPortRanges := decodePortsSlicePtr (m.lookup "allowedPortRanges")
    listenOptions := decodeListenOptionsPtr (m.lookup "listenOptions")
    httpChecks := decodeHttpChecksSlicePtr (m.lookup "httpChecks")
    portChecks := decodePortChecksSlicePtr (m.lookup "portChecks") }

/-! ## Framework constructors used by the conversions -/

mutual

/-- Structural equality of `attr.Type` values (the framework compares the
declared and actual attribute types when building objects). -/
def TFType.beq : TFType → TFType → Bool
  | .string, .string => true
  | .int32, .int32 => true
  | .bool, .bool => true
  | .list a, .list b => TFType.beq a b
  | .object xs, .object ys => TFType.beqAttrs xs ys
  | _, _ => false

/-- Structural equality of attribute-type lists. -/
def TFType.beqAttrs : List (String × TFType) → List (String × TFType) → Bool
  | [], [] => true
  | (k, a) :: xs, (l, b) :: ys => k == l && TFType.beq a b && TFType.beqAttrs xs ys
  | _, _ => false

end

/-- The `attr.Type` of an `attr.Value`. -/
def TFValue.typeOf : TFValue → TFType
  | .str _ => .string
  | .int32 _ => .int32
  | .bool _ => .bool
  | .list t _ => .list t
  | .obj tys _ => .object tys

/-- `basetypes.NewObjectValue(attributeTypes, attributes)`: validates that no
declared attribute is missing or of the wrong type and that no extra
attribute is present; on success the known object, on any validation error
`NewObjectUnknown(attributeTypes)` (plus diagnostics, which the call sites
only log). -/
def newObjectValue (tys : List (String × TFType))
    (m : List (String × TFValue)) : TFObject :=
  let ok :=
    (tys.all fun kt =>
      match m.lookup kt.1 with
      | some v => TFType.beq (TFValue.typeOf v) kt.2
      | none => false) &&
    (m.all fun kv => (tys.lookup kv.1).isSome)
  if ok then ⟨tys, .known m⟩ else ⟨tys, .unknown⟩

/-- Models `types.ListValueFrom(ctx, elemType, s)` applied to a
`[]attr.Value` built with `var s []attr.Value` plus `append`s (so `s` is the
nil slice exactly when no element was appended): the framework reflection
converts a nil Go slice to the null list, and a non-nil slice to the known
list of its elements (which at every call site already have the declared
element type). -/
def goListValueFromAttrs (t : TFType) (xs : List TFValue) : TFList :=
  if xs.isEmpty then ⟨t, .null⟩ else ⟨t, .known xs⟩

/-- Models `types.ListValueFrom(ctx, types.StringType, p)` applied to the
dereference of a non-nil `*[]string`: a nil slice becomes the null list, a
non-nil slice the known list of known strings. -/
def listValueFromStringGoSlice (sl : GoSlice String) : TFList :=
  match sl with
  | .nilS => ⟨.string, .null⟩
  | .elems xs => ⟨.string, .known (xs.map fun s => TFValue.str (.known s))⟩

/-- The attribute map of a `types.Object` state (`Attributes()` yields the
nil map for null/unknown objects). -/
def tfAttrsOf : TFOpt (List (String × TFValue)) → List (String × TFValue)
  | .known m => m
  | _ => []

/-- The element slice of a `types.List` state (`Elements()` yields the nil
slice for null/unknown lists). -/
def tfElemsOf : TFOpt (List TFValue) → List TFValue
  | .known xs => xs
  | _ => []

/-! ## The host-config resource model and its conversions -/

/-- `ZitiHostConfigResourceModel` (resource_ziti_host_config.go 106-123). -/
structure ZitiHostConfigResourceModel where
  name : TFOpt String
  address : TFOpt String
  configTypeId : TFOpt String
  port : TFOpt Int
  protocol : TFOpt String
  forwardProtocol : TFOpt Bool
  forwardPort : TFOpt Bool
  forwardAddress : TFOpt Bool
  allowedProtocols : TFList
  allowedAddresses : TFList
  allowedSourceAddresses : TFList
  allowedPortRanges : TFList
  listenOptions : TFObject
  portChecks : TFList
  httpChecks : TFList
  id : TFOpt String

/-- Loop body of the `AllowedPortRanges` branch of `ConvertToZitiResourceModel`
(resource_ziti_host_config.go 834-840): struct-to-map with `makeZeroNil`,
no key-casing conversion (`low`/`high` already match), native bridge, object. -/
def convertAllowedRangeToObject (allowedRange : HostConfigAllowedPortsDTO) : TFValue :=
  let allowedRangeco := jsonStructToObject_AllowedPorts allowedRange true false
  let objectMap :=
    nativeBasicTypedAttributesToTerraform allowedRangeco allowedPortRangeAttrTypes
  (newObjectValue allowedPortRangeAttrTypes objectMap).toValue

/-- Loop body of the nested actions loop of `ConvertToZitiResourceModel`
(resource_ziti_host_config.go 877-891 / 937-951). -/
def convertActionToObject (item : CheckActionDTO) : TFValue :=
  let actionObject := convertKeysToSnake (jsonStructToObject_CheckAction item true false)
  let actionMap := nativeBasicTypedAttributesToTerraform actionObject checkActionAttrTypes
  (newObjectValue checkActionAttrTypes actionMap).toValue

/-- Loop body of the `HTTPChecks` branch of `ConvertToZitiResourceModel`
(resource_ziti_host_config.go 870-915): struct-to-map with `makeZeroNil`,
snake-casing, dropping the raw `actions` entry, native bridge, then the
separately converted actions list is attached. The Go code dereferences
`httpCheck.Actions` without a nil check (`for _, item := range
*httpCheck.Actions`) and would panic on a nil pointer; the dereference is
modelled as iterating the empty slice. -/
def convertHTTPCheckToObject (httpCheck : HTTPCheckDTO) : TFValue :=
  let httpCheckObject :=
    (convertKeysToSnake (jsonStructToObject_HTTPCheck httpCheck true false)).filter
      fun kv => !(kv.1 == "actions")
  let httpCheckMap :=
    nativeBasicTypedAttributesToTerraform httpCheckObject httpCheckAttrTypes
  let actions := (httpCheck.actions.getD .nilS).toList.map convertActionToObject
  let actionsList := goListValueFromAttrs CheckActionModel actions
  (newObjectValue httpCheckAttrTypes
    (httpCheckMap ++ [("actions", actionsList.toValue)])).toValue

/-- Loop body of the `PortChecks` branch of `ConvertToZitiResourceModel`
(resource_ziti_host_config.go 930-975), same shape as the HTTP-check body. -/
def convertPortCheckToObject (portCheck : PortCheckDTO) : TFValue :=
  let portCheckObject :=
    (convertKeysToSnake (jsonStructToObject_PortCheck portCheck true false)).filter
      fun kv => !(kv.1 == "actions")
  let portCheckMap :=
    nativeBasicTypedAttributesToTerraform portCheckObject portCheckAttrTypes
  let actions := (portCheck.actions.getD .nilS).toList.map convertActionToObject
  let actionsList := goListValueFromAttrs CheckActionModel actions
  (newObjectValue portCheckAttrTypes
    (portCheckMap ++ [("actions", actionsList.toValue)])).toValue

/-- `(*HostConfigDTO).ConvertToZitiResourceModel` (resource_ziti_host_config.go
801-989). The fields not assigned by the function (`Name`, `ConfigTypeId`,
`ID`) keep the zero `types.String` value, which is null. -/
def convertToZitiResourceModel (dto : HostConfigDTO) : ZitiHostConfigResourceModel :=
  let allowedProtocols : TFList :=
    match dto.allowedProtocols with
    | some sl =>
      if 0 < sl.length then listValueFromStringGoSlice sl
      else listNull .string
    | none => listNull .string
  let allowedAddresses : TFList :=
    match dto.allowedAddresses with
    | some sl =>
      if 0 < sl.length then listValueFromStringGoSlice sl
      else listNull .string
    | none => listNull .string
  let allowedSourceAddresses : TFList :=
    match dto.allowedSourceAddresses with
    | some sl =>
      if 0 < sl.length then listValueFromStringGoSlice sl
      else listNull .string
    | none => listNull .string
  let allowedPortRanges : TFList :=
    match dto.allowedPortRanges with
    | some sl =>
      goListValueFromAttrs AllowedPortRangeModel (sl.toList.map convertAllowedRangeToObject)
    | none => listNull AllowedPortRangeModel
  let listenOptions : TFObject :=
    match dto.listenOptions with
    | some lo =>
      let listenOptionsObject :=
        convertKeysToSnake (jsonStructToObject_ListenOptions lo true false)
      let listenOptionsMap :=
        nativeBasicTypedAttributesToTerraform listenOptionsObject listenOptionsAttrTypes
      newObjectValue listenOptionsAttrTypes listenOptionsMap
    | none => objectNull listenOptionsAttrTypes
  let httpChecks : TFList :=
    match dto.httpChecks with
    | some sl =>
      goListValueFromAttrs HTTPCheckModel (sl.toList.map convertHTTPCheckToObject)
    | none => listNull HTTPCheckModel
  let portChecks : TFList :=
    match dto.portChecks with
    | some sl =>
      goListValueFromAttrs PortCheckModel (sl.toList.map convertPortCheckToObject)
    | none => listNull PortCheckModel
  { name := .null
    address := stringPointerValue dto.address
    configTypeId := .null
    port := int32PointerValue dto.port
    protocol := stringPointerValue dto.protocol
    forwardProtocol := boolPointerValue dto.forwardProtocol
    forwardPort := boolPointerValue dto.forwardPort
    forwardAddress := boolPointerValue dto.forwardAddress
    allowedProtocols := allowedProtocols
    allowedAddresses := allowedAddresses
    allowedSourceAddresses := allowedSourceAddresses
    allowedPortRanges := allowedPortRanges
    listenOptions := listenOptions
    portChecks := portChecks
    httpChecks := httpChecks
    id := .null }

/-- `ElementsToStringArray` (resource_ziti_host_config.go 546-557): collect
the `ValueString()` of every element that is a `types.String`; the function
returns a non-nil `[]string` in all cases. -/
def elementsToStringArray (elements : List TFValue) : List String :=
  elements.filterMap fun v =>
    match v with
    | .str s => some (valueString s)
    | _ => none

/-- `ElementsToListOfStructs` (resource_ziti_host_config.go 702-716): for
each `types.Object` element, convert its attributes to native values (no key
casing conversion here — `low`/`high` already match the json tags) and
materialize a `HostConfigAllowedPortsDTO`. -/
def elementsToListOfStructs (elements : List TFValue) : List HostConfigAllowedPortsDTO :=
  elements.filterMap fun v =>
    match v with
    | .obj _ st =>
      some (genericFromObject_AllowedPorts (attributesToNativeTypes (tfAttrsOf st)))
    | _ => none

/-- `AttributesToListenOptionsStruct` (resource_ziti_host_config.go 617-624). -/
def attributesToListenOptionsStruct (attrs : List (String × TFValue)) : ListenOptionsDTO :=
  genericFromObject_ListenOptions (convertKeysToCamel (attributesToNativeTypes attrs))

/-- Loop body of the actions loop of `AttributesToPortChecksStruct` /
`AttributesToHTTPChecksStruct` (resource_ziti_host_config.go 640-653):
each element that is a `types.Object` is converted to native values,
camel-cased and materialized as a `CheckActionDTO`. -/
def actionElemToDTO (v : TFValue) : Option CheckActionDTO :=
  match v with
  | .obj _ ost =>
    some (genericFromObject_CheckAction
      (convertKeysToCamel (attributesToNativeTypes (tfAttrsOf ost))))
  | _ => none

/-- `AttributesToPortChecksStruct` (resource_ziti_host_config.go 626-663):
materialize the basic fields via the native bridge (the `actions` list is not
a basic attribute, so it is skipped there), then rebuild the nested action
DTOs from the `actions` list attribute; the `Actions` pointer is set only
when at least one action was collected. -/
def attributesToPortChecksStruct (attrs : List (String × TFValue)) : PortCheckDTO :=
  let portChecks := genericFromObject_PortCheck (convertKeysToCamel (attributesToNativeTypes attrs))
  match attrs.lookup "actions" with
  | some (.list _ st) =>
    let actionsArray := (tfElemsOf st).filterMap actionElemToDTO
    if 0 < actionsArray.length then { portChecks with actions := some (.elems actionsArray) }
    else portChecks
  | _ => portChecks

/-- `AttributesToHTTPChecksStruct` (resource_ziti_host_config.go 664-701). -/
def attributesToHTTPChecksStruct (attrs : List (String × TFValue)) : HTTPCheckDTO :=
  let httpChecks := genericFromObject_HTTPCheck (convertKeysToCamel (attributesToNativeTypes attrs))
  match attrs.lookup "actions" with
  | some (.list _ st) =>
    let actionsArray := (tfElemsOf st).filterMap actionElemToDTO
    if 0 < actionsArray.length then { httpChecks with actions := some (.elems actionsArray) }
    else httpChecks
  | _ => httpChecks

/-- Loop body of the port-checks loop of `ToHostConfigDTO`
(resource_ziti_host_config.go 994-999): each `types.Object` element becomes a
`PortCheckDTO`. -/
def portCheckElemToDTO (v : TFValue) : Option PortCheckDTO :=
  match v with
  | .obj _ st => some (attributesToPortChecksStruct (tfAttrsOf st))
  | _ => none

/-- Loop body of the http-checks loop of `ToHostConfigDTO`
(resource_ziti_host_config.go 1000-1006). -/
def httpCheckElemToDTO (v : TFValue) : Option HTTPCheckDTO :=
  match v with
  | .obj _ st => some (attributesToHTTPChecksStruct (tfAttrsOf st))
  | _ => none

/-- `(*ZitiHostConfigResourceModel).ToHostConfigDTO` (resource_ziti_host_config.go
991-1058). Note that `ListenOptions`, `PortChecks` and `HTTPChecks` are set
unconditionally to the addresses of the local variables, so they are always
non-nil pointers; the optional fields below them are only set under their
guards. -/
def toHostConfigDTO (r : ZitiHostConfigResourceModel) : HostConfigDTO :=
  let listenOptions := attributesToListenOptionsStruct r.listenOptions.attributes
  let portChecks : GoSlice PortCheckDTO :=
    goSliceOfAppends (r.portChecks.elements.filterMap portCheckElemToDTO)
  let httpChecks : GoSlice HTTPCheckDTO :=
    goSliceOfAppends (r.httpChecks.elements.filterMap httpCheckElemToDTO)
  let hostConfigDto : HostConfigDTO :=
    { address := valueStringPointer r.address
      port := none
      protocol := valueStringPointer r.protocol
      forwardProtocol := none
      forwardPort := none
      forwardAddress := none
      allowedProtocols := none
      allowedAddresses := none
      allowedSourceAddresses := none
      allowedPortRanges := none
      listenOptions := some listenOptions
      httpChecks := some httpChecks
      portChecks := some portChecks }
  let hostConfigDto :=
    if valueBool r.forwardAddress then
      { hostConfigDto with forwardAddress := valueBoolPointer r.forwardAddress }
    else hostConfigDto
  let hostConfigDto :=
    if valueBool r.forwardPort then
      { hostConfigDto with forwardPort := valueBoolPointer r.forwardPort }
    else hostConfigDto
  let hostConfigDto :=
    if valueBool r.forwardProtocol then
      { hostConfigDto with forwardProtocol := valueBoolPointer r.forwardProtocol }
    else hostConfigDto
  let hostConfigDto :=
    if 0 < valueInt32 r.port then
      { hostConfigDto with port := valueInt32Pointer r.port }
    else hostConfigDto
  let hostConfigDto :=
    if 0 < r.allowedProtocols.elements.length then
      { hostConfigDto with
        allowedProtocols := some (.elems (elementsToStringArray r.allowedProtocols.elements)) }
    else hostConfigDto
  let hostConfigDto :=
    if 0 < r.allowedAddresses.elements.length then
      { hostConfigDto with
        allowedAddresses := some (.elems (elementsToStringArray r.allowedAddresses.elements)) }
    else hostConfigDto
  let hostConfigDto :=
    if 0 < r.allowedSourceAddresses.elements.length then
      { hostConfigDto with
        allowedSourceAddresses :=
          some (.elems (elementsToStringArray r.allowedSourceAddresses.elements)) }
    else hostConfigDto
  let hostConfigDto :=
    if 0 < r.allowedPortRanges.elements.length then
      { hostConfigDto with
        allowedPortRanges := some (.elems (elementsToListOfStructs r.allowedPortRanges.elements)) }
    else hostConfigDto
  hostConfigDto

/-- The request object built by `Create` (and `Update`)
(resource_ziti_host_config.go 1078):
`JsonStructToObject(ctx, plan.ToHostConfigDTO(ctx), true, true)`. -/
def createRequestObject (plan : ZitiHostConfigResourceModel) : List (String × GoVal) :=
  jsonStructToObject_HostConfig (toHostConfigDTO plan) true true

/-! ## Claim-level predicates -/

/-- Map a function over the elements of a Go slice. -/
def GoSlice.mapElems {α β : Type} (f : α → β) : GoSlice α → GoSlice β
  | .nilS => .nilS
  | .elems xs => .elems (xs.map f)

/-- Normalization of absent-vs-empty representations at a pointer-to-slice
position (the spec's "nil pointer vs empty list"): a pointer to a nil or
empty slice is identified with the nil pointer. -/
def normOptSlice {α : Type} : Option (GoSlice α) → Option (GoSlice α)
  | some .nilS => none
  | some (.elems []) => none
  | x => x

/-- Normalize the `Actions` pointer of a check. -/
def normPortCheck (p : PortCheckDTO) : PortCheckDTO :=
  { p with actions := normOptSlice p.actions }

/-- Normalize the `Actions` pointer of an HTTP check. -/
def normHTTPCheck (h : HTTPCheckDTO) : HTTPCheckDTO :=
  { h with actions := normOptSlice h.actions }

/-- The round-trip claim's "normalizing absent-vs-empty representations (nil
pointer vs empty list/struct)" on a `HostConfigDTO`: at every
pointer-to-list and pointer-to-struct position, a pointer to an empty
list/struct is identified with the nil pointer (scalar pointers are left
alone, as the claim's parenthetical states). -/
def normalizeHostConfigDTO (d : HostConfigDTO) : HostConfigDTO :=
  { d with
    allowedProtocols := normOptSlice d.allowedProtocols
    allowedAddresses := normOptSlice d.allowedAddresses
    allowedSourceAddresses := normOptSlice d.allowedSourceAddresses
    allowedPortRanges := normOptSlice d.allowedPortRanges
    listenOptions :=
      match d.listenOptions with
      | some lo => if listenOptionsIsZero lo then none else some lo
      | none => none
    httpChecks := (normOptSlice d.httpChecks).map (GoSlice.mapElems normHTTPCheck)
    portChecks := (normOptSlice d.portChecks).map (GoSlice.mapElems normPortCheck) }

/-- A listen-options DTO with every optional field populated. -/
def fullListenOptions (lo : ListenOptionsDTO) : Bool :=
  lo.bindUsingEdgeIdentity.isSome && lo.connectTimeout.isSome &&
  lo.cost.isSome && lo.maxConnections.isSome && lo.precedence.isSome

/-- A check action DTO with every field populated. -/
def fullCheckAction (a : CheckActionDTO) : Bool :=
  a.trigger.isSome && a.duration.isSome && a.consecutiveEvents.isSome && a.action.isSome

/-- A present `Actions` pointer (the converter dereferences it without a nil
check) whose actions are all fully populated. -/
def validActions : Option (GoSlice CheckActionDTO) → Bool
  | none => false
  | some sl => sl.toList.all fullCheckAction

/-- A port check DTO with every basic field populated and valid actions. -/
def fullPortCheck (p : PortCheckDTO) : Bool :=
  p.address.isSome && p.interval.isSome && p.timeout.isSome && validActions p.actions

/-- An HTTP check DTO with every basic field populated and valid actions. -/
def fullHTTPCheck (h : HTTPCheckDTO) : Bool :=
  h.url.isSome && h.method.isSome && h.body.isSome && h.expectStatus.isSome &&
  h.expectInBody.isSome && h.interval.isSome && h.timeout.isSome && validActions h.actions

/-- A forward flag as the API returns it for valid configurations: absent or
`true` (the provider's own write path never sends `false`, thanks to
`,omitempty` on a `*bool` set only under a `ValueBool()` guard). -/
def validForwardFlag : Option Bool → Bool
  | none => true
  | some b => b

/-- Valid field combinations of a wire `HostConfigDTO` for the round-trip
law: forward flags absent-or-true, a positive port when present (the schema
validator enforces 1..65535), fully-populated listen options when present,
and fully-populated checks whose `Actions` pointers are non-nil. Allow-list
fields are unrestricted. -/
def validHostConfigDTO (d : HostConfigDTO) : Bool :=
  validForwardFlag d.forwardProtocol && validForwardFlag d.forwardPort &&
  validForwardFlag d.forwardAddress &&
  (match d.port with
   | none => true
   | some p => decide (0 < p)) &&
  (match d.listenOptions with
   | none => true
   | some lo => fullListenOptions lo) &&
  (match d.httpChecks with
   | none => true
   | some sl => sl.toList.all fullHTTPCheck) &&
  (match d.portChecks with
   | none => true
   | some sl => sl.toList.all fullPortCheck)

/-- Not a pointer to the nil slice (a pointer to a nil slice is marshalled as
JSON null and therefore does not survive `GenericFromObject`). -/
def optSliceNotNil {α : Type} : Option (GoSlice α) → Bool
  | some .nilS => false
  | _ => true

/-- A `HostConfigDTO` none of whose pointer-to-slice fields (including each
check's nested `Actions`) points to a nil slice. -/
def hostConfigNoNilSlices (d : HostConfigDTO) : Bool :=
  optSliceNotNil d.allowedProtocols && optSliceNotNil d.allowedAddresses &&
  optSliceNotNil d.allowedSourceAddresses && optSliceNotNil d.allowedPortRanges &&
  optSliceNotNil d.httpChecks && optSliceNotNil d.portChecks &&
  (d.httpChecks.getD .nilS).toList.all (fun h => optSliceNotNil h.actions) &&
  (d.portChecks.getD .nilS).toList.all (fun p => optSliceNotNil p.actions)

/-- Tail of a valid word-separated (snake_case) identifier: lowercase ASCII
letters with single separating underscores, no trailing underscore. -/
def validSnakeTail : List Char → Bool
  | [] => true
  | c :: rest =>
    if c = '_' then
      match rest with
      | [] => false
      | d :: rest2 => isLowerAlpha d && validSnakeTail rest2
    else isLowerAlpha c && validSnakeTail rest

/-- A valid word-separated (snake_case) identifier: nonempty, starts with a
lowercase ASCII letter, words separated by single underscores. -/
def validSnakeKey (s : String) : Bool :=
  match s.toList with
  | [] => false
  | c :: rest => isLowerAlpha c && validSnakeTail rest

/-- Look an attribute up inside a `types.Object` value. -/
def getObjAttr (v : TFValue) (k : String) : Option TFValue :=
  match v with
  | .obj _ st => (tfAttrsOf st).lookup k
  | _ => none

/-- Whether a native value satisfies one of the accepted type assertions of
the string branch of `NativeBasicTypedAttributesToTerraform` (nil interface,
`string`, or `*string`). -/
def matchesStringTarget : GoVal → Bool
  | .nil => true
  | .str _ => true
  | .ptrStr _ => true
  | _ => false

/-- Accepted shapes of the int32 branch (nil, `int32`, `*int32`). -/
def matchesInt32Target : GoVal → Bool
  | .nil => true
  | .int32 _ => true
  | .ptrInt32 _ => true
  | _ => false

/-- Accepted shapes of the bool branch (nil, `bool`, `*bool`). -/
def matchesBoolTarget : GoVal → Bool
  | .nil => true
  | .bool _ => true
  | .ptrBool _ => true
  | _ => false

/-! ## Characterizations of the reflector's per-field output

These name the value stored by `JsonStructToObject` for a pointer field when
`makeZeroNil = false` and `ignoreZero = false` (the read-path roundtrip
configuration): the field is emitted unconditionally, nil pointers as nil. -/

/-- Stored value of a `*string` field under `(false, false)`. -/
def encStrPtr : Option String → GoVal
  | none => .nil
  | some s => .str s

/-- Stored value of a `*int32` field under `(false, false)`. -/
def encInt32Ptr : Option Int → GoVal
  | none => .nil
  | some n => .int32 n

/-- Stored value of a `*bool` field under `(false, false)`. -/
def encBoolPtr : Option Bool → GoVal
  | none => .nil
  | some b => .bool b

/-- Stored value of a `*[]T` field under `(false, false)`. -/
def encSlicePtr {α : Type} (embed : GoSlice α → GoVal) : Option (GoSlice α) → GoVal
  | none => .nil
  | some sl => embed sl

/-- Stored value of the `*ListenOptionsDTO` field under `(false, false)`. -/
def encListenOptionsPtrFF : Option ListenOptionsDTO → GoVal
  | none => .nil
  | some lo => .obj (jsonStructToObject_ListenOptions lo false false)

/-- Stored value of a `*string` field under `(true, false)` (`makeZeroNil`
collapses the empty string). -/
def encStrPtrMZ : Option String → GoVal
  | none => .nil
  | some s => if s == "" then .nil else .str s

/-- Stored value of a `*bool` field under `(true, false)` (`makeZeroNil`
collapses `false`). -/
def encBoolPtrMZ : Option Bool → GoVal
  | none => .nil
  | some b => if b == false then .nil else .bool b

/-- Stored value of a `*[]T` field under `(true, false)` (`makeZeroNil`
collapses nil and empty slices). -/
def encSlicePtrMZ {α : Type} (embed : GoSlice α → GoVal) : Option (GoSlice α) → GoVal
  | none => .nil
  | some sl => if sl.isZero || sl.length == 0 then .nil else embed sl

/-- The attribute state reaching the model for a string that went through the
`makeZeroNil` collapse: null for the empty string, known otherwise. -/
def strMZ (s : String) : TFOpt String := if s == "" then .null else .known s

/-- The attribute state reaching the model for a bool that went through the
`makeZeroNil` collapse: null for false, known otherwise. -/
def boolMZ (b : Bool) : TFOpt Bool := if b == false then .null else .known b

/-- Extract an attribute of the first action of the single port check of a
converted model (used to state the health-check nesting scenario). -/
def firstPortCheckActionAttr (m : ZitiHostConfigResourceModel) (k : String) : Option TFValue :=
  match m.portChecks.elements with
  | [o] =>
    match getObjAttr o "actions" with
    | some (.list _ (.known (a :: _))) => getObjAttr a k
    | _ => none
  | _ => none

/-- A plan/state model with every attribute null (the declarative model of a
resource configuring none of the optional attributes). -/
def allNullHostConfigModel : ZitiHostConfigResourceModel :=
  { name := .null, address := .null, configTypeId := .null, port := .null,
    protocol := .null, forwardProtocol := .null, forwardPort := .null,
    forwardAddress := .null, allowedProtocols := listNull .string,
    allowedAddresses := listNull .string, allowedSourceAddresses := listNull .string,
    allowedPortRanges := listNull AllowedPortRangeModel,
    listenOptions := objectNull listenOptionsAttrTypes,
    portChecks := listNull PortCheckModel, httpChecks := listNull HTTPCheckModel,
    id := .null }

/-- A representative valid host-config payload exercising every optional
branch: positive port, true forward flag, populated allow-lists, full listen
options and one full check of each kind. -/
def sampleValidHostConfig : HostConfigDTO :=
  { address := some "localhost"
    port := some 5432
    protocol := some "tcp"
    forwardProtocol := none
    forwardPort := some true
    forwardAddress := none
    allowedProtocols := some (.elems ["tcp", "udp"])
    allowedAddresses := some .nilS
    allowedSourceAddresses := none
    allowedPortRanges := some (.elems [{ low := 80, high := 443 }])
    listenOptions := some
      { bindUsingEdgeIdentity := some true, connectTimeout := some "5s",
        cost := some 10, maxConnections := some 3, precedence := some "default" }
    httpChecks := some (.elems
      [{ url := some "https://localhost/health", method := some "GET",
         body := some "", expectStatus := some 200, expectInBody := some "ok",
         interval := some "5s", timeout := some "10s",
         actions := some (.elems
           [{ trigger := some "fail", duration := some "10s",
              consecutiveEvents := some 2, action := some "mark unhealthy" }]) }])
    portChecks := some (.elems
      [{ address := some "localhost:5432", interval := some "5s", timeout := some "10s",
         actions := some (.elems
           [{ trigger := some "pass", duration := some "1s",
              consecutiveEvents := some 1, action := some "mark healthy" }]) }]) }

/-! ## Lookup infrastructure over the reflector's segmented maps -/

/-- Skip a single-entry segment whose key differs from the looked-up key. -/
theorem lookup_cons_skip {β : Type} (k key : String) (v : β)
    (rest : List (String × β)) (h : (k == key) = false) :
    List.lookup k ((key, v) :: rest) = List.lookup k rest := by
  simp [List.lookup_cons, h]

/-- A `*string` field segment never carries a foreign key. -/
theorem jsonFieldPtrStr_skip (k key : String) (v : Option String) (m z : Bool)
    (rest : List (String × GoVal)) (h : (k == key) = false) :
    List.lookup k (jsonFieldPtrStr key v m z ++ rest) = List.lookup k rest := by
  unfold jsonFieldPtrStr
  cases v <;> dsimp only <;> split <;> simp [List.lookup_cons, h]

/-- A `*int32` field segment never carries a foreign key. -/
theorem jsonFieldPtrInt32_skip (k key : String) (v : Option Int) (m z : Bool)
    (rest : List (String × GoVal)) (h : (k == key) = false) :
    List.lookup k (jsonFieldPtrInt32 key v m z ++ rest) = List.lookup k rest := by
  unfold jsonFieldPtrInt32
  cases v <;> dsimp only
  · split <;> simp [List.lookup_cons, h]
  · simp [List.lookup_cons, h]

/-- A `*bool` field segment never carries a foreign key. -/
theorem jsonFieldPtrBool_skip (k key : String) (v : Option Bool) (m z : Bool)
    (rest : List (String × GoVal)) (h : (k == key) = false) :
    List.lookup k (jsonFieldPtrBool key v m z ++ rest) = List.lookup k rest := by
  unfold jsonFieldPtrBool
  cases v <;> dsimp only <;> split <;> simp [List.lookup_cons, h]

/-- A `*[]T` field segment never carries a foreign key. -/
theorem jsonFieldPtrSlice_skip {α : Type} (k key : String) (v : Option (GoSlice α))
    (embed : GoSlice α → GoVal) (m z : Bool) (rest : List (String × GoVal))
    (h : (k == key) = false) :
    List.lookup k (jsonFieldPtrSlice key v embed m z ++ rest) = List.lookup k rest := by
  unfold jsonFieldPtrSlice
  cases v <;> dsimp only <;> split <;> simp [List.lookup_cons, h]

/-- The `*ListenOptionsDTO` field segment never carries a foreign key. -/
theorem jsonFieldPtrListenOptions_skip (k key : String) (v : Option ListenOptionsDTO)
    (m z : Bool) (rest : List (String × GoVal)) (h : (k == key) = false) :
    List.lookup k (jsonFieldPtrListenOptions key v m z ++ rest) = List.lookup k rest := by
  unfold jsonFieldPtrListenOptions
  cases v <;> dsimp only <;> split <;> simp [List.lookup_cons, h]

/-- A non-pointer `string` field segment never carries a foreign key. -/
theorem jsonFieldStr_skip (k key : String) (s : String) (m z : Bool)
    (rest : List (String × GoVal)) (h : (k == key) = false) :
    List.lookup k (jsonFieldStr key s m z ++ rest) = List.lookup k rest := by
  unfold jsonFieldStr
  dsimp only
  split <;> simp [List.lookup_cons, h]

/-- A non-pointer `int` field segment never carries a foreign key. -/
theorem jsonFieldInt_skip (k key : String) (n : Int) (m z : Bool)
    (rest : List (String × GoVal)) (h : (k == key) = false) :
    List.lookup k (jsonFieldInt key n m z ++ rest) = List.lookup k rest := by
  unfold jsonFieldInt
  dsimp only
  split <;> simp [List.lookup_cons, h]

/-- A non-pointer `bool` field segment never carries a foreign key. -/
theorem jsonFieldBool_skip (k key : String) (b : Bool) (m z : Bool)
    (rest : List (String × GoVal)) (h : (k == key) = false) :
    List.lookup k (jsonFieldBool key b m z ++ rest) = List.lookup k rest := by
  unfold jsonFieldBool
  dsimp only
  split <;> simp [List.lookup_cons, h]

/-- A non-pointer `int32` field segment never carries a foreign key. -/
theorem jsonFieldInt32_skip (k key : String) (n : Int) (m z : Bool)
    (rest : List (String × GoVal)) (h : (k == key) = false) :
    List.lookup k (jsonFieldInt32 key n m z ++ rest) = List.lookup k rest := by
  simp [jsonFieldInt32, List.lookup_cons, h]

/-- Self lookup on a `*int32` field segment with a present value: the value
is always emitted (the `Int32` exemption). -/
theorem jsonFieldPtrInt32_self (key : String) (c : Int) (m z : Bool)
    (rest : List (String × GoVal)) :
    List.lookup key (jsonFieldPtrInt32 key (some c) m z ++ rest) = some (GoVal.int32 c) := by
  simp [jsonFieldPtrInt32, List.lookup_cons]

/-- Self lookup on an absent `*int32` field segment with `ignoreZero` unset. -/
theorem jsonFieldPtrInt32_self_none (key : String) (m : Bool)
    (rest : List (String × GoVal)) :
    List.lookup key (jsonFieldPtrInt32 key none m false ++ rest) = some GoVal.nil := by
  simp [jsonFieldPtrInt32, List.lookup_cons]

/-- Self lookup on a zero non-pointer `int` field segment under
`makeZeroNil`: the zero is collapsed to nil (kind `Int`, not `Int32`). -/
theorem jsonFieldInt_self_zero (key : String) (rest : List (String × GoVal)) :
    List.lookup key (jsonFieldInt key 0 true false ++ rest) = some GoVal.nil := by
  simp [jsonFieldInt, List.lookup_cons]

/-! ## C6 — integer zero preservation in the reflector -/

/-- C6 counterexample: on the repository's own `TestStruct` with `Age int`
equal to 0, `JsonStructToObject(s, makeZeroNil=true, ignoreZero=false)` emits
`"age" ↦ nil`, not `"age" ↦ 0` — the claim's "never to an integer's zero
value" fails for a Go `int` field (the repository's `TestJsonStructToObject`
"make zero nil" test expects exactly this nil). -/
theorem jsonStruct_int_zero_collapsed :
    (jsonStructToObject_TestStruct ⟨"Dave", 0, false, none⟩ true false).lookup "age" =
      some GoVal.nil ∧
    (jsonStructToObject_TestStruct ⟨"Dave", 0, false, none⟩ true false).lookup "age" ≠
      some (GoVal.int 0) := by
  refine ⟨rfl, ?_⟩
  intro hcontra
  rw [show (jsonStructToObject_TestStruct ⟨"Dave", 0, false, none⟩ true false).lookup "age" =
      some GoVal.nil from rfl] at hcontra
  simp at hcontra

/-- C6 amended: the zero-to-nil collapse of
`JsonStructToObject(s, makeZeroNil=true, ignoreZero=false)` never applies to
a field of reflect kind `Int32` (an int32 cost of 0 is emitted as 0), while a
zero of another integer kind (Go `int`, kind `Int`) IS collapsed to nil. -/
theorem int32_zero_preserved (lo : ListenOptionsDTO) (c : Int) (t : TestStruct)
    (hc : lo.cost = some c) (ht : t.age = 0) :
    (jsonStructToObject_ListenOptions lo true false).lookup "cost" =
      some (GoVal.int32 c) ∧
    (jsonStructToObject_TestStruct t true false).lookup "age" = some GoVal.nil := by
  constructor
  · unfold jsonStructToObject_ListenOptions
    simp only [List.append_assoc]
    rw [jsonFieldPtrBool_skip "cost" "bindUsingEdgeIdentity" _ _ _ _ rfl,
        jsonFieldPtrStr_skip "cost" "connectTimeout" _ _ _ _ rfl, hc,
        jsonFieldPtrInt32_self "cost" c true false]
  · unfold jsonStructToObject_TestStruct
    simp only [List.append_assoc]
    rw [jsonFieldStr_skip "age" "name" _ _ _ _ rfl, ht,
        jsonFieldInt_self_zero "age"]

/-- C6 amended, witness: the spec's own test — a `cost` field fixed at 0 is
still emitted as 0, and the test struct's `int` zero age is emitted as nil. -/
theorem int32_zero_preserved_witness :
    (jsonStructToObject_ListenOptions ⟨none, none, some 0, none, none⟩ true false).lookup "cost" =
      some (GoVal.int32 0) ∧
    (jsonStructToObject_TestStruct ⟨"Dave", 0, false, none⟩ true false).lookup "age" =
      some GoVal.nil :=
  int32_zero_preserved ⟨none, none, some 0, none, none⟩ 0 ⟨"Dave", 0, false, none⟩ rfl rfl

/-! ## C7 — absent vs explicit zero across the native-value bridge -/

/-- C7 counterexample: `AttributesToNativeTypes` maps a null string attribute
and a known empty string attribute to identical native maps (both to the
entry `"a" ↦ ""`), so the model-to-native direction does NOT keep
null/unknown distinguishable from the explicit zero value. -/
theorem attributesToNativeTypes_conflates_null_and_zero :
    attributesToNativeTypes [("a", TFValue.str .null)] =
      attributesToNativeTypes [("a", TFValue.str (.known ""))] ∧
    attributesToNativeTypes [("a", TFValue.str .null)] = [("a", GoVal.str "")] :=
  ⟨rfl, rfl⟩

/-- C7 amended: the bridge is asymmetric. `AttributesToNativeTypes`
(model to native) collapses null/unknown basic attributes to the native zero
value (`""`, `0`, `false`), indistinguishable from an explicit zero;
`NativeBasicTypedAttributesToTerraform` (native to model) does preserve the
distinction, mapping a missing or nil entry to the null attribute and an
explicit zero native value to the known zero attribute. -/
theorem native_value_bridge_zero_collapse (k : String) :
    attributesToNativeTypes [(k, .str .null)] = [(k, .str "")] ∧
    attributesToNativeTypes [(k, .str .unknown)] = [(k, .str "")] ∧
    attributesToNativeTypes [(k, .int32 .null)] = [(k, .int32 0)] ∧
    attributesToNativeTypes [(k, .bool .null)] = [(k, .bool false)] ∧
    nativeBasicTypedAttributesToTerraform [] [(k, .string)] = [(k, .str .null)] ∧
    nativeBasicTypedAttributesToTerraform [(k, .nil)] [(k, .string)] = [(k, .str .null)] ∧
    nativeBasicTypedAttributesToTerraform [(k, .str "")] [(k, .string)] =
      [(k, .str (.known ""))] ∧
    nativeBasicTypedAttributesToTerraform [] [(k, .int32)] = [(k, .int32 .null)] ∧
    nativeBasicTypedAttributesToTerraform [(k, .int32 0)] [(k, .int32)] =
      [(k, .int32 (.known 0))] ∧
    nativeBasicTypedAttributesToTerraform [] [(k, .bool)] = [(k, .bool .null)] ∧
    nativeBasicTypedAttributesToTerraform [(k, .bool false)] [(k, .bool)] =
      [(k, .bool (.known false))] := by
  refine ⟨rfl, rfl, rfl, rfl, ?_, ?_, ?_, ?_, ?_, ?_, ?_⟩ <;>
    simp [nativeBasicTypedAttributesToTerraform, nbtatString, nbtatInt32, nbtatBool,
      List.lookup_cons]

/-! ## C8 — type-mismatch policy of the native-to-model direction -/

/-- C8 counterexample: for a present but type-mismatched native value
(a bool supplied for a string target) the function emits NO entry at all —
the result map is empty, not a null-valued entry, so it does not contain an
entry for every listed basic target name. -/
theorem nbtat_mismatch_cex :
    nativeBasicTypedAttributesToTerraform [("a", .bool true)] [("a", .string)] = [] ∧
    (nativeBasicTypedAttributesToTerraform [("a", .bool true)] [("a", .string)]).lookup "a" =
      none :=
  ⟨rfl, rfl⟩

/-- C8 amended: when the supplied native value is present but of a mismatched
type, `NativeBasicTypedAttributesToTerraform` logs and OMITS the entry
entirely (silent degradation by omission, not a null fallback); an entry is
produced when the value is absent, nil, or type-matching. -/
theorem nbtat_mismatch_omits (attrs : List (String × GoVal)) (k : String) (v : GoVal)
    (hv : attrs.lookup k = some v) :
    (matchesStringTarget v = false →
      nativeBasicTypedAttributesToTerraform attrs [(k, .string)] = []) ∧
    (matchesInt32Target v = false →
      nativeBasicTypedAttributesToTerraform attrs [(k, .int32)] = []) ∧
    (matchesBoolTarget v = false →
      nativeBasicTypedAttributesToTerraform attrs [(k, .bool)] = []) ∧
    (matchesStringTarget v = true →
      ∃ w, nativeBasicTypedAttributesToTerraform attrs [(k, .string)] = [(k, TFValue.str w)]) := by
  refine ⟨?_, ?_, ?_, ?_⟩ <;> intro hm <;>
    cases v <;>
    simp_all [nativeBasicTypedAttributesToTerraform, nbtatString, nbtatInt32, nbtatBool,
      hv, matchesStringTarget, matchesInt32Target, matchesBoolTarget]

/-- C8 amended, witness. -/
theorem nbtat_mismatch_omits_witness :
    nativeBasicTypedAttributesToTerraform [("a", GoVal.bool true)] [("a", TFType.string)] = [] :=
  (nbtat_mismatch_omits [("a", .bool true)] "a" (.bool true) rfl).1 rfl

/-! ## C10 — casing idempotence -/

/-- A successful association-list lookup yields a member pair. -/
theorem lookup_mem {α β : Type} [BEq α] [LawfulBEq α] :
    ∀ (l : List (α × β)) (a : α) (b : β), l.lookup a = some b → (a, b) ∈ l := by
  intro l
  induction l with
  | nil => intro a b h; simp [List.lookup] at h
  | cons p t ih =>
    obtain ⟨k, v⟩ := p
    intro a b h
    rw [List.lookup_cons] at h
    cases hak : a == k with
    | true =>
      rw [hak] at h
      simp only [] at h
      cases h
      have ha : a = k := beq_iff_eq.mp hak
      subst ha
      exact List.mem_cons_self _ _
    | false =>
      rw [hak] at h
      exact List.mem_cons_of_mem _ (ih a b h)

/-- Facts about the ASCII case table, checked by evaluation. -/
theorem casePairs_facts : ∀ p ∈ casePairs,
    downChar p.1 = p.1 ∧ isUpperAlpha p.1 = false ∧ upChar p.1 = p.2 ∧
    isUpperAlpha p.2 = true ∧ downChar p.2 = p.1 := by decide

/-- Case-conversion facts for a lowercase ASCII letter. -/
theorem isLowerAlpha_facts (c : Char) (h : isLowerAlpha c = true) :
    downChar c = c ∧ isUpperAlpha c = false ∧
    isUpperAlpha (upChar c) = true ∧ downChar (upChar c) = c := by
  unfold isLowerAlpha at h
  cases hv : casePairs.lookup c with
  | none => rw [hv] at h; simp at h
  | some v =>
    have hmem := lookup_mem casePairs c v hv
    obtain ⟨h1, h2, h3, h4, h5⟩ := casePairs_facts (c, v) hmem
    have hup : upChar c = v := by unfold upChar; rw [hv]; rfl
    rw [hup]
    exact ⟨h1, h2, h4, h5⟩

/-- Snake-to-camel-to-snake is the identity on valid identifier tails. -/
theorem toSnake_toLowerCamel_chars :
    ∀ cs, validSnakeTail cs = true → toSnakeChars (toLowerCamelChars cs) = cs := by
  intro cs
  induction cs using toLowerCamelChars.induct with
  | case1 => intro h; rfl
  | case2 =>
    intro h
    simp [validSnakeTail] at h
  | case3 d rest2 ih =>
    intro h
    rw [show validSnakeTail ('_' :: d :: rest2) = (isLowerAlpha d && validSnakeTail rest2)
      from rfl, Bool.and_eq_true] at h
    obtain ⟨hd, hrest⟩ := h
    obtain ⟨_, _, hu, hdu⟩ := isLowerAlpha_facts d hd
    show toSnakeChars (upChar d :: toLowerCamelChars rest2) = '_' :: d :: rest2
    rw [toSnakeChars, hu]
    simp [hdu, ih hrest]
  | case4 c rest hc ih =>
    intro h
    rw [validSnakeTail.eq_def] at h
    simp only [if_neg hc, Bool.and_eq_true] at h
    obtain ⟨hlc, hrest⟩ := h
    obtain ⟨_, hni, _, _⟩ := isLowerAlpha_facts c hlc
    show toSnakeChars (toLowerCamelChars (c :: rest)) = c :: rest
    rw [show toLowerCamelChars (c :: rest) = c :: toLowerCamelChars rest from by
      rw [toLowerCamelChars.eq_def]
      simp [hc]]
    rw [toSnakeChars, hni]
    simp [ih hrest]

/-- Snake-to-camel-to-snake is the identity on valid identifier keys. -/
theorem toSnake_toLowerCamel (s : String) (h : validSnakeKey s = true) :
    toSnake (toLowerCamel s) = s := by
  unfold validSnakeKey at h
  cases s with
  | mk data =>
    cases data with
    | nil => simp [String.toList] at h
    | cons c rest =>
      rw [show String.toList (String.mk (c :: rest)) = c :: rest from rfl] at h
      simp only [Bool.and_eq_true] at h
      obtain ⟨hc, hrest⟩ := h
      obtain ⟨hdc, hni, _, _⟩ := isLowerAlpha_facts c hc
      show toSnake (String.mk (downChar c :: toLowerCamelChars rest)) = String.mk (c :: rest)
      unfold toSnake
      rw [show String.toList (String.mk (downChar c :: toLowerCamelChars rest)) =
        downChar c :: toLowerCamelChars rest from rfl, hdc, toSnakeChars, hni]
      simp [toSnake_toLowerCamel_chars rest hrest]

/-- Key-by-key roundtrip on a whole mapping. -/
theorem convertKeys_roundtrip_aux {α : Type} :
    ∀ (m : List (String × α)), (∀ k ∈ m.map Prod.fst, validSnakeKey k = true) →
      convertKeysToSnake (convertKeysToCamel m) = m := by
  intro m
  induction m with
  | nil => intro _; rfl
  | cons kv t ih =>
    intro h
    obtain ⟨k, v⟩ := kv
    have hk : validSnakeKey k = true := h k (by simp)
    have ht : ∀ k' ∈ t.map Prod.fst, validSnakeKey k' = true := by
      intro k' hk'
      exact h k' (by simp [hk'])
    simp only [convertKeysToCamel, convertKeysToSnake, List.map_cons] at ih ⊢
    rw [toSnake_toLowerCamel k hk]
    have := ih ht
    simp only [convertKeysToCamel, convertKeysToSnake] at this
    rw [this]

/-- C10: for every flat string-keyed mapping whose keys are valid
word-separated (snake_case) identifiers, rewriting the keys to the wire
casing (`convertKeysToCamel`) and back (`convertKeysToSnake`) is the
identity, and the values are untouched by both conversions. -/
theorem convertKeys_camel_snake_roundtrip {α : Type} (m : List (String × α))
    (h : ∀ k ∈ m.map Prod.fst, validSnakeKey k = true) :
    convertKeysToSnake (convertKeysToCamel m) = m ∧
    (convertKeysToCamel m).map Prod.snd = m.map Prod.snd ∧
    (convertKeysToSnake (convertKeysToCamel m)).map Prod.snd = m.map Prod.snd := by
  refine ⟨convertKeys_roundtrip_aux m h, ?_, ?_⟩
  · simp [convertKeysToCamel]
  · rw [convertKeys_roundtrip_aux m h]

/-- C10 witness: the roundtrip at a concrete mapping with this provider's
attribute keys. -/
theorem convertKeys_camel_snake_roundtrip_witness :
    convertKeysToSnake (convertKeysToCamel
      [("bind_using_edge_identity", GoVal.bool true), ("connect_timeout", GoVal.str "5s"),
       ("consecutive_events", GoVal.int32 1)]) =
      [("bind_using_edge_identity", GoVal.bool true), ("connect_timeout", GoVal.str "5s"),
       ("consecutive_events", GoVal.int32 1)] :=
  (convertKeys_camel_snake_roundtrip _ (by decide)).1

/-! ## C3 — nil wire collections become explicit null attributes -/

/-- C3: for every `HostConfigDTO` in which an optional nested collection
field is nil, `ConvertToZitiResourceModel` sets the corresponding declarative
attribute to the explicit null list (respectively the null object), never an
empty list; and for the payload carrying only address, port and protocol the
result has exactly those three values known and every optional attribute
null. -/
theorem convert_nil_collections_null (dto : HostConfigDTO) :
    (dto.allowedProtocols = none →
      (convertToZitiResourceModel dto).allowedProtocols = listNull .string) ∧
    (dto.allowedAddresses = none →
      (convertToZitiResourceModel dto).allowedAddresses = listNull .string) ∧
    (dto.allowedSourceAddresses = none →
      (convertToZitiResourceModel dto).allowedSourceAddresses = listNull .string) ∧
    (dto.allowedPortRanges = none →
      (convertToZitiResourceModel dto).allowedPortRanges = listNull AllowedPortRangeModel) ∧
    (dto.listenOptions = none →
      (convertToZitiResourceModel dto).listenOptions = objectNull listenOptionsAttrTypes) ∧
    (dto.httpChecks = none →
      (convertToZitiResourceModel dto).httpChecks = listNull HTTPCheckModel) ∧
    (dto.portChecks = none →
      (convertToZitiResourceModel dto).portChecks = listNull PortCheckModel) ∧
    (convertToZitiResourceModel
        ⟨some "localhost", some 5432, some "tcp", none, none, none, none, none, none, none,
         none, none, none⟩ =
      { name := .null, address := .known "localhost", configTypeId := .null,
        port := .known 5432, protocol := .known "tcp",
        forwardProtocol := .null, forwardPort := .null, forwardAddress := .null,
        allowedProtocols := listNull .string, allowedAddresses := listNull .string,
        allowedSourceAddresses := listNull .string,
        allowedPortRanges := listNull AllowedPortRangeModel,
        listenOptions := objectNull listenOptionsAttrTypes,
        portChecks := listNull PortCheckModel, httpChecks := listNull HTTPCheckModel,
        id := .null }) := by
  refine ⟨?_, ?_, ?_, ?_, ?_, ?_, ?_, rfl⟩ <;> intro h <;>
    simp [convertToZitiResourceModel, h]

/-- C3 witness: the implications applied at the scenario payload. -/
theorem convert_nil_collections_null_witness :
    (convertToZitiResourceModel
      ⟨some "localhost", some 5432, some "tcp", none, none, none, none, none, none, none,
       none, none, none⟩).allowedProtocols = listNull .string ∧
    (convertToZitiResourceModel
      ⟨some "localhost", some 5432, some "tcp", none, none, none, none, none, none, none,
       none, none, none⟩).listenOptions = objectNull listenOptionsAttrTypes :=
  ⟨(convert_nil_collections_null _).1 rfl,
   (convert_nil_collections_null _).2.2.2.2.1 rfl⟩

/-! ## C4 — forwarding-mode create request -/

/-- With a null plan port, `ToHostConfigDTO` leaves the DTO port nil
(`ValueInt32()` of null is 0, failing the positivity guard). -/
theorem toHostConfigDTO_port_of_null (r : ZitiHostConfigResourceModel)
    (h : r.port = .null) : (toHostConfigDTO r).port = none := by
  simp [toHostConfigDTO, h, apply_ite HostConfigDTO.port, valueInt32]

/-- With a known-true plan forward_port, `ToHostConfigDTO` sets the DTO
forwardPort pointer to true. -/
theorem toHostConfigDTO_forwardPort_of_true (r : ZitiHostConfigResourceModel)
    (h : r.forwardPort = .known true) : (toHostConfigDTO r).forwardPort = some true := by
  simp [toHostConfigDTO, h, apply_ite HostConfigDTO.forwardPort, valueBool, valueBoolPointer]

/-- With a known nonempty allowed_port_ranges list, `ToHostConfigDTO`
materializes the DTO element list. -/
theorem toHostConfigDTO_allowedPortRanges_elems (r : ZitiHostConfigResourceModel)
    (xs : List TFValue) (h : r.allowedPortRanges.state = .known xs)
    (hlen : 0 < xs.length) :
    (toHostConfigDTO r).allowedPortRanges = some (.elems (elementsToListOfStructs xs)) := by
  simp [toHostConfigDTO, apply_ite HostConfigDTO.allowedPortRanges, TFList.elements, h, hlen]

/-- Skip an entire trailing slice segment when looking up a foreign key. -/
theorem jsonFieldPtrSlice_skip_last {α : Type} (k key : String) (v : Option (GoSlice α))
    (embed : GoSlice α → GoVal) (m z : Bool) (h : (k == key) = false) :
    List.lookup k (jsonFieldPtrSlice key v embed m z) = none := by
  have := jsonFieldPtrSlice_skip k key v embed m z [] h
  simpa using this

/-- Self lookup on a `*bool` field segment holding true. -/
theorem jsonFieldPtrBool_self_true (key : String) (m z : Bool)
    (rest : List (String × GoVal)) :
    List.lookup key (jsonFieldPtrBool key (some true) m z ++ rest) =
      some (GoVal.bool true) := by
  simp [jsonFieldPtrBool, List.lookup_cons]

/-- Self lookup on a `*[]T` field segment holding a non-nil nonempty slice. -/
theorem jsonFieldPtrSlice_self_elems {α : Type} (key : String) (x : α) (xs : List α)
    (embed : GoSlice α → GoVal) (m z : Bool) (rest : List (String × GoVal)) :
    List.lookup key (jsonFieldPtrSlice key (some (.elems (x :: xs))) embed m z ++ rest) =
      some (embed (.elems (x :: xs))) := by
  simp [jsonFieldPtrSlice, List.lookup_cons, GoSlice.isZero, GoSlice.length, GoSlice.toList]

/-- C4: for a plan with forward_port true, port null and a single
allowed_port_ranges element `{low 80, high 443}`, the create/update request
object `JsonStructToObject(plan.ToHostConfigDTO(ctx), true, true)` contains
no `port` key, maps `forwardPort` to true, and maps `allowedPortRanges` to
the one-element list with low 80 and high 443. -/
theorem create_forwarding_mode (plan : ZitiHostConfigResourceModel)
    (hfp : plan.forwardPort = .known true)
    (hport : plan.port = .null)
    (hranges : plan.allowedPortRanges.state =
      .known [TFValue.obj allowedPortRangeAttrTypes
        (.known [("low", TFValue.int32 (.known 80)), ("high", TFValue.int32 (.known 443))])]) :
    (createRequestObject plan).lookup "port" = none ∧
    (createRequestObject plan).lookup "forwardPort" = some (GoVal.bool true) ∧
    (createRequestObject plan).lookup "allowedPortRanges" =
      some (GoVal.portsSlice (.elems [⟨80, 443⟩])) := by
  have h1 : (toHostConfigDTO plan).port = none := toHostConfigDTO_port_of_null plan hport
  have h2 : (toHostConfigDTO plan).forwardPort = some true :=
    toHostConfigDTO_forwardPort_of_true plan hfp
  have h3 : (toHostConfigDTO plan).allowedPortRanges = some (.elems [⟨80, 443⟩]) := by
    have hx := toHostConfigDTO_allowedPortRanges_elems plan _ hranges (by simp)
    exact hx.trans (by rfl)
  unfold createRequestObject jsonStructToObject_HostConfig
  simp only [List.append_assoc]
  refine ⟨?_, ?_, ?_⟩
  · rw [jsonFieldPtrStr_skip "port" "address" _ _ _ _ rfl, h1,
        show jsonFieldPtrInt32 "port" none true true = [] from rfl, List.nil_append,
        jsonFieldPtrStr_skip "port" "protocol" _ _ _ _ rfl,
        jsonFieldPtrBool_skip "port" "forwardProtocol" _ _ _ _ rfl,
        jsonFieldPtrBool_skip "port" "forwardPort" _ _ _ _ rfl,
        jsonFieldPtrBool_skip "port" "forwardAddress" _ _ _ _ rfl,
        jsonFieldPtrSlice_skip "port" "allowedProtocols" _ _ _ _ _ rfl,
        jsonFieldPtrSlice_skip "port" "allowedAddresses" _ _ _ _ _ rfl,
        jsonFieldPtrSlice_skip "port" "allowedSourceAddresses" _ _ _ _ _ rfl,
        jsonFieldPtrSlice_skip "port" "allowedPortRanges" _ _ _ _ _ rfl,
        jsonFieldPtrListenOptions_skip "port" "listenOptions" _ _ _ _ rfl,
        jsonFieldPtrSlice_skip "port" "httpChecks" _ _ _ _ _ rfl,
        jsonFieldPtrSlice_skip_last "port" "portChecks" _ _ _ _ rfl]
  · rw [jsonFieldPtrStr_skip "forwardPort" "address" _ _ _ _ rfl,
        jsonFieldPtrInt32_skip "forwardPort" "port" _ _ _ _ rfl,
        jsonFieldPtrStr_skip "forwardPort" "protocol" _ _ _ _ rfl,
        jsonFieldPtrBool_skip "forwardPort" "forwardProtocol" _ _ _ _ rfl, h2,
        jsonFieldPtrBool_self_true "forwardPort"]
  · rw [jsonFieldPtrStr_skip "allowedPortRanges" "address" _ _ _ _ rfl,
        jsonFieldPtrInt32_skip "allowedPortRanges" "port" _ _ _ _ rfl,
        jsonFieldPtrStr_skip "allowedPortRanges" "protocol" _ _ _ _ rfl,
        jsonFieldPtrBool_skip "allowedPortRanges" "forwardProtocol" _ _ _ _ rfl,
        jsonFieldPtrBool_skip "allowedPortRanges" "forwardPort" _ _ _ _ rfl,
        jsonFieldPtrBool_skip "allowedPortRanges" "forwardAddress" _ _ _ _ rfl,
        jsonFieldPtrSlice_skip "allowedPortRanges" "allowedProtocols" _ _ _ _ _ rfl,
        jsonFieldPtrSlice_skip "allowedPortRanges" "allowedAddresses" _ _ _ _ _ rfl,
        jsonFieldPtrSlice_skip "allowedPortRanges" "allowedSourceAddresses" _ _ _ _ _ rfl, h3,
        jsonFieldPtrSlice_self_elems "allowedPortRanges" _ _ _ _ _ _]

/-- C4 witness: the forwarding-mode request at a concrete plan. -/
theorem create_forwarding_mode_witness :
    (createRequestObject
      { name := .null, address := .null, configTypeId := .null, port := .null,
        protocol := .null, forwardProtocol := .null, forwardPort := .known true,
        forwardAddress := .null, allowedProtocols := listNull .string,
        allowedAddresses := listNull .string, allowedSourceAddresses := listNull .string,
        allowedPortRanges := ⟨AllowedPortRangeModel,
          .known [TFValue.obj allowedPortRangeAttrTypes
            (.known [("low", TFValue.int32 (.known 80)),
                     ("high", TFValue.int32 (.known 443))])]⟩,
        listenOptions := objectNull listenOptionsAttrTypes,
        portChecks := listNull PortCheckModel, httpChecks := listNull HTTPCheckModel,
        id := .null }).lookup "port" = none :=
  (create_forwarding_mode _ rfl rfl rfl).1

/-! ## C9 — sub-structure assembly in `ToHostConfigDTO` -/

/-- C9 counterexample: for the all-null plan model (listen options and check
lists absent), `ToHostConfigDTO` sets `ListenOptions` to a pointer to the
empty struct and `PortChecks`/`HTTPChecks` to pointers to nil slices — it
never leaves these three fields as nil pointers, contradicting the claim
that an absent declarative list or object yields a nil DTO pointer. -/
theorem toHostConfigDTO_substructs_cex :
    (toHostConfigDTO allNullHostConfigModel).listenOptions =
      some ⟨none, none, none, none, none⟩ ∧
    (toHostConfigDTO allNullHostConfigModel).portChecks = some .nilS ∧
    (toHostConfigDTO allNullHostConfigModel).httpChecks = some .nilS ∧
    (toHostConfigDTO allNullHostConfigModel).listenOptions ≠ none := by
  refine ⟨rfl, rfl, rfl, ?_⟩
  intro h
  rw [show (toHostConfigDTO allNullHostConfigModel).listenOptions =
    some ⟨none, none, none, none, none⟩ from rfl] at h
  exact Option.noConfusion h

/-- Skip a `*ListenOptionsDTO` segment whose dereferenced struct is zero
under `ignoreZero`: nothing is emitted. -/
theorem jsonFieldPtrListenOptions_self_zero (key : String) (lo : ListenOptionsDTO)
    (m : Bool) (rest : List (String × GoVal)) (h : listenOptionsIsZero lo = true) :
    List.lookup key (jsonFieldPtrListenOptions key (some lo) m true ++ rest) =
      List.lookup key rest := by
  simp [jsonFieldPtrListenOptions, h]

/-- C9 amended: `ToHostConfigDTO` always sets `ListenOptions`, `PortChecks`
and `HTTPChecks` to non-nil pointers (to possibly-empty structures); only the
allow-list fields are nil exactly when the declarative list has no elements,
and a check's nested `Actions` pointer stays nil when the actions list
attribute is known-empty. The omission of an empty listen-options object
from the wire payload happens later, in
`JsonStructToObject(dto, true, true)` on the create/update path. -/
theorem toHostConfigDTO_substructs (r : ZitiHostConfigResourceModel)
    (attrs : List (String × TFValue)) :
    (toHostConfigDTO r).listenOptions =
      some (attributesToListenOptionsStruct r.listenOptions.attributes) ∧
    ((toHostConfigDTO r).portChecks).isSome = true ∧
    ((toHostConfigDTO r).httpChecks).isSome = true ∧
    (r.allowedProtocols.elements.length = 0 →
      (toHostConfigDTO r).allowedProtocols = none) ∧
    (r.allowedAddresses.elements.length = 0 →
      (toHostConfigDTO r).allowedAddresses = none) ∧
    (r.allowedSourceAddresses.elements.length = 0 →
      (toHostConfigDTO r).allowedSourceAddresses = none) ∧
    (r.allowedPortRanges.elements.length = 0 →
      (toHostConfigDTO r).allowedPortRanges = none) ∧
    (attrs.lookup "actions" = some (TFValue.list CheckActionModel (.known [])) →
      (convertKeysToCamel (attributesToNativeTypes attrs)).lookup "actions" = none →
      (attributesToPortChecksStruct attrs).actions = none) ∧
    (listenOptionsIsZero (attributesToListenOptionsStruct r.listenOptions.attributes) = true →
      (createRequestObject r).lookup "listenOptions" = none) := by
  have hlo : (toHostConfigDTO r).listenOptions =
      some (attributesToListenOptionsStruct r.listenOptions.attributes) := by
    simp [toHostConfigDTO, apply_ite HostConfigDTO.listenOptions]
  refine ⟨hlo, ?_, ?_, ?_, ?_, ?_, ?_, ?_, ?_⟩
  · simp [toHostConfigDTO, apply_ite HostConfigDTO.portChecks, apply_ite Option.isSome]
  · simp [toHostConfigDTO, apply_ite HostConfigDTO.httpChecks, apply_ite Option.isSome]
  · intro h
    simp [toHostConfigDTO, apply_ite HostConfigDTO.allowedProtocols, h]
  · intro h
    simp [toHostConfigDTO, apply_ite HostConfigDTO.allowedAddresses, h]
  · intro h
    simp [toHostConfigDTO, apply_ite HostConfigDTO.allowedSourceAddresses, h]
  · intro h
    simp [toHostConfigDTO, apply_ite HostConfigDTO.allowedPortRanges, h]
  · intro ha hn
    unfold attributesToPortChecksStruct
    rw [ha]
    simp [tfElemsOf, genericFromObject_PortCheck, hn, decodeActionsSlicePtr]
  · intro hz
    unfold createRequestObject jsonStructToObject_HostConfig
    simp only [List.append_assoc]
    rw [jsonFieldPtrStr_skip "listenOptions" "address" _ _ _ _ rfl,
        jsonFieldPtrInt32_skip "listenOptions" "port" _ _ _ _ rfl,
        jsonFieldPtrStr_skip "listenOptions" "protocol" _ _ _ _ rfl,
        jsonFieldPtrBool_skip "listenOptions" "forwardProtocol" _ _ _ _ rfl,
        jsonFieldPtrBool_skip "listenOptions" "forwardPort" _ _ _ _ rfl,
        jsonFieldPtrBool_skip "listenOptions" "forwardAddress" _ _ _ _ rfl,
        jsonFieldPtrSlice_skip "listenOptions" "allowedProtocols" _ _ _ _ _ rfl,
        jsonFieldPtrSlice_skip "listenOptions" "allowedAddresses" _ _ _ _ _ rfl,
        jsonFieldPtrSlice_skip "listenOptions" "allowedSourceAddresses" _ _ _ _ _ rfl,
        jsonFieldPtrSlice_skip "listenOptions" "allowedPortRanges" _ _ _ _ _ rfl,
        hlo, jsonFieldPtrListenOptions_self_zero "listenOptions" _ _ _ hz,
        jsonFieldPtrSlice_skip "listenOptions" "httpChecks" _ _ _ _ _ rfl,
        jsonFieldPtrSlice_skip_last "listenOptions" "portChecks" _ _ _ _ rfl]

/-- C9 amended, witness: at the all-null model the listen-options pointer is
non-nil, the allow-lists are nil, and the wire request omits the key. -/
theorem toHostConfigDTO_substructs_witness :
    (toHostConfigDTO allNullHostConfigModel).allowedProtocols = none ∧
    (createRequestObject allNullHostConfigModel).lookup "listenOptions" = none :=
  ⟨(toHostConfigDTO_substructs allNullHostConfigModel []).2.2.2.1 rfl,
   (toHostConfigDTO_substructs allNullHostConfigModel []).2.2.2.2.2.2.2.2 rfl⟩

/-! ## C5 — health-check nesting -/

/-- C5 counterexample: for a wire payload with one port check whose first
action has no `consecutiveEvents`, the converted action's
`consecutive_events` attribute is the null value, NOT the known value 1 (the
default of 1 lives in the resource schema, applied by the plan engine, not in
`ConvertToZitiResourceModel`). -/
theorem portcheck_consecutive_events_not_defaulted :
    firstPortCheckActionAttr
      (convertToZitiResourceModel
        ⟨none, none, none, none, none, none, none, none, none, none, none, none,
         some (.elems [⟨some "localhost", some "5s", some "10s",
           some (.elems [⟨some "fail", some "30s", none, some "mark unhealthy"⟩,
                         ⟨some "pass", some "10s", some 1, some "mark healthy"⟩])⟩])⟩)
      "consecutive_events" = some (TFValue.int32 .null) ∧
    firstPortCheckActionAttr
      (convertToZitiResourceModel
        ⟨none, none, none, none, none, none, none, none, none, none, none, none,
         some (.elems [⟨some "localhost", some "5s", some "10s",
           some (.elems [⟨some "fail", some "30s", none, some "mark unhealthy"⟩,
                         ⟨some "pass", some "10s", some 1, some "mark healthy"⟩])⟩])⟩)
      "consecutive_events" ≠ some (TFValue.int32 (.known 1)) := by
  refine ⟨rfl, ?_⟩
  intro h
  rw [show firstPortCheckActionAttr
      (convertToZitiResourceModel
        ⟨none, none, none, none, none, none, none, none, none, none, none, none,
         some (.elems [⟨some "localhost", some "5s", some "10s",
           some (.elems [⟨some "fail", some "30s", none, some "mark unhealthy"⟩,
                         ⟨some "pass", some "10s", some 1, some "mark healthy"⟩])⟩])⟩)
      "consecutive_events" = some (TFValue.int32 .null) from rfl] at h
  simp at h

/-- A wire payload with exactly one port check converts to a known
one-element port_checks list holding the converted check object. -/
theorem convert_portChecks_single (dto : HostConfigDTO) (pc : PortCheckDTO)
    (h : dto.portChecks = some (.elems [pc])) :
    (convertToZitiResourceModel dto).portChecks.state =
      .known [convertPortCheckToObject pc] := by
  simp [convertToZitiResourceModel, h, goListValueFromAttrs, GoSlice.toList]

/-- Characterization of a converted check action: basic string fields with
nonempty values survive as known strings, and `consecutive_events` is exactly
`Int32PointerValue` of the wire pointer (null when absent, known otherwise). -/
theorem convertActionToObject_spec (a : CheckActionDTO) (t d ac : String)
    (ht : a.trigger = some t) (htne : (t == "") = false)
    (hd : a.duration = some d) (hdne : (d == "") = false)
    (hac : a.action = some ac) (hacne : (ac == "") = false) :
    convertActionToObject a = TFValue.obj checkActionAttrTypes (.known
      [("trigger", .str (.known t)), ("duration", .str (.known d)),
       ("action", .str (.known ac)),
       ("consecutive_events", TFValue.int32 (int32PointerValue a.consecutiveEvents))]) := by
  cases hce : a.consecutiveEvents with
  | none =>
    unfold convertActionToObject
    rw [show jsonStructToObject_CheckAction a true false =
      [("trigger", GoVal.str t), ("duration", GoVal.str d),
       ("consecutiveEvents", GoVal.nil), ("action", GoVal.str ac)] from by
        unfold jsonStructToObject_CheckAction jsonFieldPtrStr jsonFieldPtrInt32
        rw [ht, hd, hce, hac]
        simp [htne, hdne, hacne]]
    rfl
  | some n =>
    unfold convertActionToObject
    rw [show jsonStructToObject_CheckAction a true false =
      [("trigger", GoVal.str t), ("duration", GoVal.str d),
       ("consecutiveEvents", GoVal.int32 n), ("action", GoVal.str ac)] from by
        unfold jsonStructToObject_CheckAction jsonFieldPtrStr jsonFieldPtrInt32
        rw [ht, hd, hce, hac]
        simp [htne, hdne, hacne]]
    rfl

/-- Characterization of a converted port check with nonempty basic fields and
two actions. -/
theorem convertPortCheckToObject_spec (pc : PortCheckDTO) (a1 a2 : CheckActionDTO)
    (adr iv tm : String)
    (hadr : pc.address = some adr) (hadrne : (adr == "") = false)
    (hiv : pc.interval = some iv) (hivne : (iv == "") = false)
    (htm : pc.timeout = some tm) (htmne : (tm == "") = false)
    (hacts : pc.actions = some (.elems [a1, a2])) :
    convertPortCheckToObject pc = TFValue.obj portCheckAttrTypes (.known
      [("address", .str (.known adr)), ("interval", .str (.known iv)),
       ("timeout", .str (.known tm)),
       ("actions", TFValue.list CheckActionModel (.known
         [convertActionToObject a1, convertActionToObject a2]))]) := by
  unfold convertPortCheckToObject
  rw [show jsonStructToObject_PortCheck pc true false =
    [("address", GoVal.str adr), ("interval", GoVal.str iv), ("timeout", GoVal.str tm),
     ("actions", GoVal.actionsSlice (.elems [a1, a2]))] from by
      unfold jsonStructToObject_PortCheck jsonFieldPtrStr jsonFieldPtrSlice
      rw [hadr, hiv, htm, hacts]
      simp [hadrne, hivne, htmne, GoSlice.isZero, GoSlice.length, GoSlice.toList]]
  rw [hacts]
  rfl

/-- C5 amended: for a wire payload whose `portChecks` holds exactly one check
with two actions (all basic string fields present and nonempty),
`ConvertToZitiResourceModel` produces a declarative port_checks list of
length 1 whose single element's nested actions list has length 2, preserving
each action's trigger, duration and action values, with
`consecutive_events` NULL whenever the wire `ConsecutiveEvents` is absent
(and the known value when present) — the default of 1 is applied by the
schema at plan time, not by this conversion. -/
theorem portcheck_nesting (dto : HostConfigDTO) (pc : PortCheckDTO)
    (a1 a2 : CheckActionDTO) (adr iv tm t1 d1 ac1 t2 d2 ac2 : String) (n2 : Int)
    (hdto : dto.portChecks = some (.elems [pc]))
    (hadr : pc.address = some adr) (hadrne : (adr == "") = false)
    (hiv : pc.interval = some iv) (hivne : (iv == "") = false)
    (htm : pc.timeout = some tm) (htmne : (tm == "") = false)
    (hacts : pc.actions = some (.elems [a1, a2]))
    (ht1 : a1.trigger = some t1) (ht1ne : (t1 == "") = false)
    (hd1 : a1.duration = some d1) (hd1ne : (d1 == "") = false)
    (hac1 : a1.action = some ac1) (hac1ne : (ac1 == "") = false)
    (hce1 : a1.consecutiveEvents = none)
    (ht2 : a2.trigger = some t2) (ht2ne : (t2 == "") = false)
    (hd2 : a2.duration = some d2) (hd2ne : (d2 == "") = false)
    (hac2 : a2.action = some ac2) (hac2ne : (ac2 == "") = false)
    (hce2 : a2.consecutiveEvents = some n2) :
    ∃ o, (convertToZitiResourceModel dto).portChecks.state = .known [o] ∧
      getObjAttr o "address" = some (.str (.known adr)) ∧
      getObjAttr o "interval" = some (.str (.known iv)) ∧
      getObjAttr o "timeout" = some (.str (.known tm)) ∧
      ∃ o1 o2,
        getObjAttr o "actions" =
          some (TFValue.list CheckActionModel (.known [o1, o2])) ∧
        getObjAttr o1 "trigger" = some (.str (.known t1)) ∧
        getObjAttr o1 "duration" = some (.str (.known d1)) ∧
        getObjAttr o1 "action" = some (.str (.known ac1)) ∧
        getObjAttr o1 "consecutive_events" = some (TFValue.int32 .null) ∧
        getObjAttr o2 "trigger" = some (.str (.known t2)) ∧
        getObjAttr o2 "duration" = some (.str (.known d2)) ∧
        getObjAttr o2 "action" = some (.str (.known ac2)) ∧
        getObjAttr o2 "consecutive_events" = some (TFValue.int32 (.known n2)) := by
  have hconv := convert_portChecks_single dto pc hdto
  have hpc := convertPortCheckToObject_spec pc a1 a2 adr iv tm hadr hadrne hiv hivne
    htm htmne hacts
  have ha1 := convertActionToObject_spec a1 t1 d1 ac1 ht1 ht1ne hd1 hd1ne hac1 hac1ne
  have ha2 := convertActionToObject_spec a2 t2 d2 ac2 ht2 ht2ne hd2 hd2ne hac2 hac2ne
  rw [hce1] at ha1
  rw [hce2] at ha2
  refine ⟨convertPortCheckToObject pc, hconv, ?_, ?_, ?_,
    convertActionToObject a1, convertActionToObject a2, ?_, ?_, ?_, ?_, ?_, ?_, ?_, ?_, ?_⟩
  · rw [hpc]; rfl
  · rw [hpc]; rfl
  · rw [hpc]; rfl
  · rw [hpc]; rfl
  · rw [ha1]; rfl
  · rw [ha1]; rfl
  · rw [ha1]; rfl
  · rw [ha1]; rfl
  · rw [ha2]; rfl
  · rw [ha2]; rfl
  · rw [ha2]; rfl
  · rw [ha2]; rfl

/-! ## C2 — reflect-then-materialize roundtrip (`GenericFromObject` after
`JsonStructToObject(S, false, false)`) -/

/-- C2 counterexample: a pointer to a NIL slice does not survive the
roundtrip — the nil slice is marshalled as JSON null, and unmarshalling null
sets the pointer itself to nil, so `S` with `AllowedProtocols = &[]string(nil)`
comes back with `AllowedProtocols = nil`. -/
theorem mapToStruct_structToMap_cex :
    genericFromObject_HostConfig (jsonStructToObject_HostConfig
      ⟨none, none, none, none, none, none, some .nilS, none, none, none, none, none, none⟩
      false false) ≠
    ⟨none, none, none, none, none, none, some .nilS, none, none, none, none, none, none⟩ := by
  decide

/-- Under `(false, false)` a `*string` segment is one unconditional entry. -/
theorem jsonFieldPtrStr_ff (key : String) (v : Option String) :
    jsonFieldPtrStr key v false false = [(key, encStrPtr v)] := by
  cases v <;> rfl

/-- Under `(false, false)` a `*int32` segment is one unconditional entry. -/
theorem jsonFieldPtrInt32_ff (key : String) (v : Option Int) :
    jsonFieldPtrInt32 key v false false = [(key, encInt32Ptr v)] := by
  cases v <;> rfl

/-- Under `(false, false)` a `*bool` segment is one unconditional entry. -/
theorem jsonFieldPtrBool_ff (key : String) (v : Option Bool) :
    jsonFieldPtrBool key v false false = [(key, encBoolPtr v)] := by
  cases v <;> rfl

/-- Under `(false, false)` a `*[]T` segment is one unconditional entry. -/
theorem jsonFieldPtrSlice_ff {α : Type} (key : String) (v : Option (GoSlice α))
    (embed : GoSlice α → GoVal) :
    jsonFieldPtrSlice key v embed false false = [(key, encSlicePtr embed v)] := by
  cases v <;> rfl

/-- Under `(false, false)` the `*ListenOptionsDTO` segment is one entry
holding the recursed nested map. -/
theorem jsonFieldPtrListenOptions_ff (key : String) (v : Option ListenOptionsDTO) :
    jsonFieldPtrListenOptions key v false false = [(key, encListenOptionsPtrFF v)] := by
  cases v <;> rfl

/-- Decoding inverts the `(false, false)` encoding of a `*string` field. -/
theorem decodeStrPtr_enc (v : Option String) : decodeStrPtr (some (encStrPtr v)) = v := by
  cases v <;> rfl

/-- Decoding inverts the `(false, false)` encoding of a `*int32` field. -/
theorem decodeInt32Ptr_enc (v : Option Int) : decodeInt32Ptr (some (encInt32Ptr v)) = v := by
  cases v <;> rfl

/-- Decoding inverts the `(false, false)` encoding of a `*bool` field. -/
theorem decodeBoolPtr_enc (v : Option Bool) : decodeBoolPtr (some (encBoolPtr v)) = v := by
  cases v <;> rfl

/-- Decoding inverts the encoding of a `*[]string` field unless the stored
slice is nil. -/
theorem decodeStrSlicePtr_enc (v : Option (GoSlice String))
    (h : optSliceNotNil v = true) :
    decodeStrSlicePtr (some (encSlicePtr GoVal.strSlice v)) = v := by
  cases v with
  | none => rfl
  | some sl =>
    cases sl with
    | nilS => simp [optSliceNotNil] at h
    | elems xs => rfl

/-- Decoding inverts the encoding of the `*[]HostConfigAllowedPortsDTO`
field unless the stored slice is nil. -/
theorem decodePortsSlicePtr_enc (v : Option (GoSlice HostConfigAllowedPortsDTO))
    (h : optSliceNotNil v = true) :
    decodePortsSlicePtr (some (encSlicePtr GoVal.portsSlice v)) = v := by
  cases v with
  | none => rfl
  | some sl =>
    cases sl with
    | nilS => simp [optSliceNotNil] at h
    | elems xs =>
      exact congrArg (fun l => some (GoSlice.elems l)) (List.map_id' xs)

/-- The JSON roundtrip of a check's `Actions` pointer is the identity unless
it points to a nil slice. -/
theorem jsonRT_actions_id (v : Option (GoSlice CheckActionDTO))
    (h : optSliceNotNil v = true) : jsonRT_actions v = v := by
  cases v with
  | none => rfl
  | some sl =>
    cases sl with
    | nilS => simp [optSliceNotNil] at h
    | elems xs =>
      exact congrArg (fun l => some (GoSlice.elems l)) (List.map_id' xs)

/-- The JSON roundtrip of a `PortCheckDTO` is the identity unless its
`Actions` points to a nil slice. -/
theorem jsonRT_portCheck_id (x : PortCheckDTO) (h : optSliceNotNil x.actions = true) :
    jsonRT_portCheck x = x := by
  unfold jsonRT_portCheck
  rw [jsonRT_actions_id x.actions h]

/-- The JSON roundtrip of an `HTTPCheckDTO` is the identity unless its
`Actions` points to a nil slice. -/
theorem jsonRT_httpCheck_id (x : HTTPCheckDTO) (h : optSliceNotNil x.actions = true) :
    jsonRT_httpCheck x = x := by
  unfold jsonRT_httpCheck
  rw [jsonRT_actions_id x.actions h]

/-- Elementwise identity of the JSON roundtrip on a port-check list. -/
theorem map_jsonRT_portCheck (xs : List PortCheckDTO)
    (h : xs.all (fun x => optSliceNotNil x.actions) = true) :
    xs.map jsonRT_portCheck = xs := by
  induction xs with
  | nil => rfl
  | cons x t ih =>
    rw [List.all_cons, Bool.and_eq_true] at h
    simp [jsonRT_portCheck_id x h.1, ih h.2]

/-- Elementwise identity of the JSON roundtrip on an HTTP-check list. -/
theorem map_jsonRT_httpCheck (xs : List HTTPCheckDTO)
    (h : xs.all (fun x => optSliceNotNil x.actions) = true) :
    xs.map jsonRT_httpCheck = xs := by
  induction xs with
  | nil => rfl
  | cons x t ih =>
    rw [List.all_cons, Bool.and_eq_true] at h
    simp [jsonRT_httpCheck_id x h.1, ih h.2]

/-- Decoding inverts the encoding of the `*[]PortCheckDTO` field when no nil
slices are stored. -/
theorem decodePortChecksSlicePtr_enc (v : Option (GoSlice PortCheckDTO))
    (h : optSliceNotNil v = true)
    (ha : (v.getD .nilS).toList.all (fun x => optSliceNotNil x.actions) = true) :
    decodePortChecksSlicePtr (some (encSlicePtr GoVal.portChecksSlice v)) = v := by
  cases v with
  | none => rfl
  | some sl =>
    cases sl with
    | nilS => simp [optSliceNotNil] at h
    | elems xs =>
      simp only [Option.getD, GoSlice.toList] at ha
      simp [encSlicePtr, decodePortChecksSlicePtr, map_jsonRT_portCheck xs ha]

/-- Decoding inverts the encoding of the `*[]HTTPCheckDTO` field when no nil
slices are stored. -/
theorem decodeHttpChecksSlicePtr_enc (v : Option (GoSlice HTTPCheckDTO))
    (h : optSliceNotNil v = true)
    (ha : (v.getD .nilS).toList.all (fun x => optSliceNotNil x.actions) = true) :
    decodeHttpChecksSlicePtr (some (encSlicePtr GoVal.httpChecksSlice v)) = v := by
  cases v with
  | none => rfl
  | some sl =>
    cases sl with
    | nilS => simp [optSliceNotNil] at h
    | elems xs =>
      simp only [Option.getD, GoSlice.toList] at ha
      simp [encSlicePtr, decodeHttpChecksSlicePtr, map_jsonRT_httpCheck xs ha]

/-- The nested listen-options roundtrip under `(false, false)` is exact. -/
theorem genericFromObject_listenOptions_ff (lo : ListenOptionsDTO) :
    genericFromObject_ListenOptions (jsonStructToObject_ListenOptions lo false false) = lo := by
  obtain ⟨b, ct, c, mc, p⟩ := lo
  simp only [jsonStructToObject_ListenOptions, jsonFieldPtrBool_ff, jsonFieldPtrStr_ff,
    jsonFieldPtrInt32_ff, List.cons_append, List.nil_append]
  unfold genericFromObject_ListenOptions
  simp only [ListenOptionsDTO.mk.injEq]
  exact ⟨decodeBoolPtr_enc b, decodeStrPtr_enc ct, decodeInt32Ptr_enc c,
    decodeInt32Ptr_enc mc, decodeStrPtr_enc p⟩

/-- Decoding inverts the `(false, false)` encoding of the
`*ListenOptionsDTO` field. -/
theorem decodeListenOptionsPtr_enc (v : Option ListenOptionsDTO) :
    decodeListenOptionsPtr (some (encListenOptionsPtrFF v)) = v := by
  cases v with
  | none => rfl
  | some lo =>
    show some (genericFromObject_ListenOptions (jsonStructToObject_ListenOptions lo false false)) =
      some lo
    rw [genericFromObject_listenOptions_ff lo]

/-- C2 amended: materializing the reflected map back into the struct is the
identity, `GenericFromObject (JsonStructToObject S false false) = S`, for
every `HostConfigDTO` none of whose pointer-to-slice fields (including each
check's nested `Actions`) points to a NIL slice — a pointer to a nil slice
is marshalled as null and comes back as a nil pointer. -/
theorem mapToStruct_structToMap_id (S : HostConfigDTO)
    (h : hostConfigNoNilSlices S = true) :
    genericFromObject_HostConfig (jsonStructToObject_HostConfig S false false) = S := by
  obtain ⟨a, p, pr, fp, fpo, fa, ap, aa, asa, apr, lo, hc, pc⟩ := S
  simp only [hostConfigNoNilSlices, Bool.and_eq_true] at h
  obtain ⟨⟨⟨⟨⟨⟨⟨h1, h2⟩, h3⟩, h4⟩, h5⟩, h6⟩, h7⟩, h8⟩ := h
  simp only [jsonStructToObject_HostConfig, jsonFieldPtrStr_ff, jsonFieldPtrInt32_ff,
    jsonFieldPtrBool_ff, jsonFieldPtrSlice_ff, jsonFieldPtrListenOptions_ff,
    List.cons_append, List.nil_append]
  unfold genericFromObject_HostConfig
  simp only [HostConfigDTO.mk.injEq]
  exact ⟨decodeStrPtr_enc a, decodeInt32Ptr_enc p, decodeStrPtr_enc pr,
    decodeBoolPtr_enc fp, decodeBoolPtr_enc fpo, decodeBoolPtr_enc fa,
    decodeStrSlicePtr_enc ap h1, decodeStrSlicePtr_enc aa h2,
    decodeStrSlicePtr_enc asa h3, decodePortsSlicePtr_enc apr h4,
    decodeListenOptionsPtr_enc lo,
    decodeHttpChecksSlicePtr_enc hc h5 h7,
    decodePortChecksSlicePtr_enc pc h6 h8⟩

/-- C2 amended, witness: the roundtrip at a fully populated instance. -/
theorem mapToStruct_structToMap_id_witness :
    genericFromObject_HostConfig (jsonStructToObject_HostConfig
      ⟨some "localhost", some 5432, some "tcp", none, some true, none,
       some (.elems ["tcp"]), none, some (.elems ["10.0.0.0/8"]),
       some (.elems [⟨80, 443⟩]),
       some ⟨some false, some "5s", some 0, some 65535, some "default"⟩,
       some (.elems [⟨some "https://localhost/health", some "GET", some "", some 200,
         some "ok", some "5s", some "10s",
         some (.elems [⟨some "fail", some "30s", some 2, some "mark unhealthy"⟩])⟩]),
       some (.elems [⟨some "localhost:5432", some "5s", some "10s",
         some (.elems [⟨some "pass", some "10s", none, some "mark healthy"⟩])⟩])⟩
      false false) =
    ⟨some "localhost", some 5432, some "tcp", none, some true, none,
     some (.elems ["tcp"]), none, some (.elems ["10.0.0.0/8"]),
     some (.elems [⟨80, 443⟩]),
     some ⟨some false, some "5s", some 0, some 65535, some "default"⟩,
     some (.elems [⟨some "https://localhost/health", some "GET", some "", some 200,
       some "ok", some "5s", some "10s",
       some (.elems [⟨some "fail", some "30s", some 2, some "mark unhealthy"⟩])⟩]),
     some (.elems [⟨some "localhost:5432", some "5s", some "10s",
       some (.elems [⟨some "pass", some "10s", none, some "mark healthy"⟩])⟩])⟩ :=
  mapToStruct_structToMap_id _ (by decide)

/-- C5 amended, witness: the scenario at concrete values. -/
theorem portcheck_nesting_witness :
    ∃ o, (convertToZitiResourceModel
      ⟨none, none, none, none, none, none, none, none, none, none, none, none,
       some (.elems [⟨some "localhost", some "5s", some "10s",
         some (.elems [⟨some "fail", some "30s", none, some "mark unhealthy"⟩,
                       ⟨some "pass", some "10s", some 3, some "mark healthy"⟩])⟩])⟩).portChecks.state =
        .known [o] ∧
      getObjAttr o "address" = some (.str (.known "localhost")) ∧
      getObjAttr o "interval" = some (.str (.known "5s")) ∧
      getObjAttr o "timeout" = some (.str (.known "10s")) ∧
      ∃ o1 o2,
        getObjAttr o "actions" =
          some (TFValue.list CheckActionModel (.known [o1, o2])) ∧
        getObjAttr o1 "trigger" = some (.str (.known "fail")) ∧
        getObjAttr o1 "duration" = some (.str (.known "30s")) ∧
        getObjAttr o1 "action" = some (.str (.known "mark unhealthy")) ∧
        getObjAttr o1 "consecutive_events" = some (TFValue.int32 .null) ∧
        getObjAttr o2 "trigger" = some (.str (.known "pass")) ∧
        getObjAttr o2 "duration" = some (.str (.known "10s")) ∧
        getObjAttr o2 "action" = some (.str (.known "mark healthy")) ∧
        getObjAttr o2 "consecutive_events" = some (TFValue.int32 (.known 3)) :=
  portcheck_nesting _ _ _ _ "localhost" "5s" "10s" "fail" "30s" "mark unhealthy"
    "pass" "10s" "mark healthy" 3 rfl rfl rfl rfl rfl rfl rfl rfl rfl rfl rfl rfl
    rfl rfl rfl rfl rfl rfl rfl rfl rfl rfl

/-! ## C1 — entity payload round-trip -/

/-- C1 counterexample: a valid payload whose listen options carry only a
`cost` does not round-trip, even after normalizing absent-vs-empty
representations: the absent listen-option sub-fields come back as explicit
zero values (`&false`, `&""`, `&0`), because `AttributesToNativeTypes` reads
null attributes as native zero values on the way back. -/
theorem hostconfig_roundtrip_cex :
    normalizeHostConfigDTO (toHostConfigDTO (convertToZitiResourceModel
      ⟨some "localhost", some 5432, some "tcp", none, none, none, none, none, none, none,
       some ⟨none, none, some 5, none, none⟩, none, none⟩)) ≠
    normalizeHostConfigDTO
      ⟨some "localhost", some 5432, some "tcp", none, none, none, none, none, none, none,
       some ⟨none, none, some 5, none, none⟩, none, none⟩ := by
  decide

/-- Reading a model field written by `StringPointerValue` back with
`ValueStringPointer` is the identity. -/
theorem valueStringPointer_stringPointerValue (v : Option String) :
    valueStringPointer (stringPointerValue v) = v := by
  cases v <;> rfl

/-- Converted address field of the model. -/
theorem convert_address (dto : HostConfigDTO) :
    (convertToZitiResourceModel dto).address = stringPointerValue dto.address := rfl

/-- Converted protocol field of the model. -/
theorem convert_protocol (dto : HostConfigDTO) :
    (convertToZitiResourceModel dto).protocol = stringPointerValue dto.protocol := rfl

/-- Converted port field of the model. -/
theorem convert_port (dto : HostConfigDTO) :
    (convertToZitiResourceModel dto).port = int32PointerValue dto.port := rfl

/-- Converted forward flags of the model. -/
theorem convert_forwards (dto : HostConfigDTO) :
    (convertToZitiResourceModel dto).forwardProtocol = boolPointerValue dto.forwardProtocol ∧
    (convertToZitiResourceModel dto).forwardPort = boolPointerValue dto.forwardPort ∧
    (convertToZitiResourceModel dto).forwardAddress = boolPointerValue dto.forwardAddress :=
  ⟨rfl, rfl, rfl⟩

/-- Address of the DTO built back from a model. -/
theorem toHostConfigDTO_address (r : ZitiHostConfigResourceModel) :
    (toHostConfigDTO r).address = valueStringPointer r.address := by
  simp [toHostConfigDTO, apply_ite HostConfigDTO.address]

/-- Protocol of the DTO built back from a model. -/
theorem toHostConfigDTO_protocol (r : ZitiHostConfigResourceModel) :
    (toHostConfigDTO r).protocol = valueStringPointer r.protocol := by
  simp [toHostConfigDTO, apply_ite HostConfigDTO.protocol]

/-- Port of the DTO built back from a model: guarded by positivity. -/
theorem toHostConfigDTO_port_eq (r : ZitiHostConfigResourceModel) :
    (toHostConfigDTO r).port =
      if 0 < valueInt32 r.port then valueInt32Pointer r.port else none := by
  simp [toHostConfigDTO, apply_ite HostConfigDTO.port]

/-- Forward-protocol of the DTO built back from a model. -/
theorem toHostConfigDTO_forwardProtocol_eq (r : ZitiHostConfigResourceModel) :
    (toHostConfigDTO r).forwardProtocol =
      if valueBool r.forwardProtocol then valueBoolPointer r.forwardProtocol else none := by
  simp [toHostConfigDTO, apply_ite HostConfigDTO.forwardProtocol]

/-- Forward-port of the DTO built back from a model. -/
theorem toHostConfigDTO_forwardPort_eq (r : ZitiHostConfigResourceModel) :
    (toHostConfigDTO r).forwardPort =
      if valueBool r.forwardPort then valueBoolPointer r.forwardPort else none := by
  simp [toHostConfigDTO, apply_ite HostConfigDTO.forwardPort]

/-- Forward-address of the DTO built back from a model. -/
theorem toHostConfigDTO_forwardAddress_eq (r : ZitiHostConfigResourceModel) :
    (toHostConfigDTO r).forwardAddress =
      if valueBool r.forwardAddress then valueBoolPointer r.forwardAddress else none := by
  simp [toHostConfigDTO, apply_ite HostConfigDTO.forwardAddress]

/-- Allowed-protocols of the DTO built back from a model. -/
theorem toHostConfigDTO_allowedProtocols_eq (r : ZitiHostConfigResourceModel) :
    (toHostConfigDTO r).allowedProtocols =
      if 0 < r.allowedProtocols.elements.length then
        some (.elems (elementsToStringArray r.allowedProtocols.elements))
      else none := by
  simp [toHostConfigDTO, apply_ite HostConfigDTO.allowedProtocols]

/-- Allowed-addresses of the DTO built back from a model. -/
theorem toHostConfigDTO_allowedAddresses_eq (r : ZitiHostConfigResourceModel) :
    (toHostConfigDTO r).allowedAddresses =
      if 0 < r.allowedAddresses.elements.length then
        some (.elems (elementsToStringArray r.allowedAddresses.elements))
      else none := by
  simp [toHostConfigDTO, apply_ite HostConfigDTO.allowedAddresses]

/-- Allowed-source-addresses of the DTO built back from a model. -/
theorem toHostConfigDTO_allowedSourceAddresses_eq (r : ZitiHostConfigResourceModel) :
    (toHostConfigDTO r).allowedSourceAddresses =
      if 0 < r.allowedSourceAddresses.elements.length then
        some (.elems (elementsToStringArray r.allowedSourceAddresses.elements))
      else none := by
  simp [toHostConfigDTO, apply_ite HostConfigDTO.allowedSourceAddresses]

/-- Allowed-port-ranges of the DTO built back from a model. -/
theorem toHostConfigDTO_allowedPortRanges_eq (r : ZitiHostConfigResourceModel) :
    (toHostConfigDTO r).allowedPortRanges =
      if 0 < r.allowedPortRanges.elements.length then
        some (.elems (elementsToListOfStructs r.allowedPortRanges.elements))
      else none := by
  simp [toHostConfigDTO, apply_ite HostConfigDTO.allowedPortRanges]

/-- Listen options of the DTO built back from a model: always a non-nil
pointer around the materialized struct. -/
theorem toHostConfigDTO_listenOptions_eq (r : ZitiHostConfigResourceModel) :
    (toHostConfigDTO r).listenOptions =
      some (attributesToListenOptionsStruct r.listenOptions.attributes) := by
  simp [toHostConfigDTO, apply_ite HostConfigDTO.listenOptions]

/-- Port checks of the DTO built back from a model. -/
theorem toHostConfigDTO_portChecks_eq (r : ZitiHostConfigResourceModel) :
    (toHostConfigDTO r).portChecks =
      some (goSliceOfAppends (r.portChecks.elements.filterMap portCheckElemToDTO)) := by
  simp [toHostConfigDTO, apply_ite HostConfigDTO.portChecks]

/-- HTTP checks of the DTO built back from a model. -/
theorem toHostConfigDTO_httpChecks_eq (r : ZitiHostConfigResourceModel) :
    (toHostConfigDTO r).httpChecks =
      some (goSliceOfAppends (r.httpChecks.elements.filterMap httpCheckElemToDTO)) := by
  simp [toHostConfigDTO, apply_ite HostConfigDTO.httpChecks]

/-- A filterMap over mapped elements that succeeds pointwise is a map. -/
theorem filterMap_map_some {α β : Type} (f : α → TFValue) (g : TFValue → Option β)
    (gg : α → β) (xs : List α) (h : ∀ x ∈ xs, g (f x) = some (gg x)) :
    (xs.map f).filterMap g = xs.map gg := by
  induction xs with
  | nil => rfl
  | cons x t ih =>
    simp only [List.map_cons, List.filterMap_cons, h x (by simp)]
    rw [ih (fun y hy => h y (by simp [hy]))]

/-- Reading back a list of known strings yields the original strings. -/
theorem elementsToStringArray_map (xs : List String) :
    elementsToStringArray (xs.map fun s => TFValue.str (.known s)) = xs := by
  induction xs with
  | nil => rfl
  | cons x t ih => simp [elementsToStringArray, valueString] at ih ⊢; exact ih

/-- A `*string` segment under `(true, false)` is one entry with the
collapsed value. -/
theorem jsonFieldPtrStr_tf (key : String) (v : Option String) :
    jsonFieldPtrStr key v true false = [(key, encStrPtrMZ v)] := by
  cases v <;> rfl

/-- A `*bool` segment under `(true, false)` is one entry with the collapsed
value. -/
theorem jsonFieldPtrBool_tf (key : String) (v : Option Bool) :
    jsonFieldPtrBool key v true false = [(key, encBoolPtrMZ v)] := by
  cases v <;> rfl

/-- A `*int32` segment under `(true, false)` is one uncollapsed entry. -/
theorem jsonFieldPtrInt32_tf (key : String) (v : Option Int) :
    jsonFieldPtrInt32 key v true false = [(key, encInt32Ptr v)] := by
  cases v <;> rfl

/-- A `*[]T` segment under `(true, false)` is one entry with the collapsed
value. -/
theorem jsonFieldPtrSlice_tf {α : Type} (key : String) (v : Option (GoSlice α))
    (embed : GoSlice α → GoVal) :
    jsonFieldPtrSlice key v embed true false = [(key, encSlicePtrMZ embed v)] := by
  cases v <;> rfl

/-- The string branch of the native bridge on a collapsed string value. -/
theorem nbtatString_encStrPtrMZ (name s : String) :
    nbtatString (some (encStrPtrMZ (some s))) name = some (name, .str (strMZ s)) := by
  unfold encStrPtrMZ strMZ nbtatString
  cases h : s == "" <;> simp [h]

/-- The bool branch of the native bridge on a collapsed bool value. -/
theorem nbtatBool_encBoolPtrMZ (name : String) (b : Bool) :
    nbtatBool (some (encBoolPtrMZ (some b))) name = some (name, .bool (boolMZ b)) := by
  cases b <;> rfl

/-- Reading a collapsed string attribute back as a native value restores the
original string (the null state reads as `""`, which is the collapsed
original). -/
theorem valueString_strMZ (s : String) : valueString (strMZ s) = s := by
  unfold strMZ
  cases h : s == "" with
  | true =>
    simp only [h, if_true]
    exact (eq_of_beq h).symm
  | false => simp [h, valueString]

/-- Reading a collapsed bool attribute back restores the original bool. -/
theorem valueBool_boolMZ (b : Bool) : valueBool (boolMZ b) = b := by
  cases b <;> rfl

/-- Roundtrip of one check action through the model: converting a fully
populated `CheckActionDTO` to a model object and materializing it back is
the identity. -/
theorem action_model_roundtrip (x : CheckActionDTO) (hfull : fullCheckAction x = true) :
    actionElemToDTO (convertActionToObject x) = some x := by
  obtain ⟨t, dd, ce, ac⟩ := x
  simp only [fullCheckAction, Bool.and_eq_true] at hfull
  obtain ⟨⟨⟨h1, h2⟩, h3⟩, h4⟩ := hfull
  obtain ⟨t0, rfl⟩ := Option.isSome_iff_exists.mp h1
  obtain ⟨d0, rfl⟩ := Option.isSome_iff_exists.mp h2
  obtain ⟨n0, rfl⟩ := Option.isSome_iff_exists.mp h3
  obtain ⟨a0, rfl⟩ := Option.isSome_iff_exists.mp h4
  unfold convertActionToObject
  rw [show jsonStructToObject_CheckAction ⟨some t0, some d0, some n0, some a0⟩ true false =
    [("trigger", encStrPtrMZ (some t0)), ("duration", encStrPtrMZ (some d0)),
     ("consecutiveEvents", GoVal.int32 n0), ("action", encStrPtrMZ (some a0))] from by
      simp [jsonStructToObject_CheckAction, jsonFieldPtrStr_tf, jsonFieldPtrInt32_tf,
        encInt32Ptr]]
  rw [show convertKeysToSnake
      [("trigger", encStrPtrMZ (some t0)), ("duration", encStrPtrMZ (some d0)),
       ("consecutiveEvents", GoVal.int32 n0), ("action", encStrPtrMZ (some a0))] =
    [("trigger", encStrPtrMZ (some t0)), ("duration", encStrPtrMZ (some d0)),
     ("consecutive_events", GoVal.int32 n0), ("action", encStrPtrMZ (some a0))] from rfl]
  dsimp only
  rw [show nativeBasicTypedAttributesToTerraform
      [("trigger", encStrPtrMZ (some t0)), ("duration", encStrPtrMZ (some d0)),
       ("consecutive_events", GoVal.int32 n0), ("action", encStrPtrMZ (some a0))]
      checkActionAttrTypes =
    [("trigger", .str (strMZ t0)), ("duration", .str (strMZ d0)),
     ("action", .str (strMZ a0)), ("consecutive_events", .int32 (.known n0))] from by
      simp [nativeBasicTypedAttributesToTerraform, checkActionAttrTypes, List.lookup_cons,
        nbtatString_encStrPtrMZ, nbtatInt32]]
  show some (CheckActionDTO.mk (some (valueString (strMZ t0))) (some (valueString (strMZ d0)))
    (some n0) (some (valueString (strMZ a0)))) = _
  rw [valueString_strMZ, valueString_strMZ, valueString_strMZ]

/-- Roundtrip of a fully populated listen-options struct through the model
object built by `ConvertToZitiResourceModel` and back through
`AttributesToListenOptionsStruct`. -/
theorem listenOptions_model_roundtrip (l : ListenOptionsDTO)
    (hfull : fullListenOptions l = true) :
    attributesToListenOptionsStruct
      (newObjectValue listenOptionsAttrTypes
        (nativeBasicTypedAttributesToTerraform
          (convertKeysToSnake (jsonStructToObject_ListenOptions l true false))
          listenOptionsAttrTypes)).attributes = l := by
  obtain ⟨b, ct, c, mc, pv⟩ := l
  simp only [fullListenOptions, Bool.and_eq_true] at hfull
  obtain ⟨⟨⟨⟨h1, h2⟩, h3⟩, h4⟩, h5⟩ := hfull
  obtain ⟨b0, rfl⟩ := Option.isSome_iff_exists.mp h1
  obtain ⟨ct0, rfl⟩ := Option.isSome_iff_exists.mp h2
  obtain ⟨c0, rfl⟩ := Option.isSome_iff_exists.mp h3
  obtain ⟨mc0, rfl⟩ := Option.isSome_iff_exists.mp h4
  obtain ⟨p0, rfl⟩ := Option.isSome_iff_exists.mp h5
  rw [show jsonStructToObject_ListenOptions ⟨some b0, some ct0, some c0, some mc0, some p0⟩
      true false =
    [("bindUsingEdgeIdentity", encBoolPtrMZ (some b0)),
     ("connectTimeout", encStrPtrMZ (some ct0)),
     ("cost", GoVal.int32 c0), ("maxConnections", GoVal.int32 mc0),
     ("precedence", encStrPtrMZ (some p0))] from by
      simp [jsonStructToObject_ListenOptions, jsonFieldPtrBool_tf, jsonFieldPtrStr_tf,
        jsonFieldPtrInt32_tf, encInt32Ptr]]
  rw [show convertKeysToSnake
      [("bindUsingEdgeIdentity", encBoolPtrMZ (some b0)),
       ("connectTimeout", encStrPtrMZ (some ct0)),
       ("cost", GoVal.int32 c0), ("maxConnections", GoVal.int32 mc0),
       ("precedence", encStrPtrMZ (some p0))] =
    [("bind_using_edge_identity", encBoolPtrMZ (some b0)),
     ("connect_timeout", encStrPtrMZ (some ct0)),
     ("cost", GoVal.int32 c0), ("max_connections", GoVal.int32 mc0),
     ("precedence", encStrPtrMZ (some p0))] from rfl]
  rw [show nativeBasicTypedAttributesToTerraform
      [("bind_using_edge_identity", encBoolPtrMZ (some b0)),
       ("connect_timeout", encStrPtrMZ (some ct0)),
       ("cost", GoVal.int32 c0), ("max_connections", GoVal.int32 mc0),
       ("precedence", encStrPtrMZ (some p0))] listenOptionsAttrTypes =
    [("bind_using_edge_identity", .bool (boolMZ b0)), ("connect_timeout", .str (strMZ ct0)),
     ("cost", .int32 (.known c0)), ("max_connections", .int32 (.known mc0)),
     ("precedence", .str (strMZ p0))] from by
      simp [nativeBasicTypedAttributesToTerraform, listenOptionsAttrTypes, List.lookup_cons,
        nbtatString_encStrPtrMZ, nbtatBool_encBoolPtrMZ, nbtatInt32]]
  show ListenOptionsDTO.mk (some (valueBool (boolMZ b0))) (some (valueString (strMZ ct0)))
    (some c0) (some mc0) (some (valueString (strMZ p0))) = _
  rw [valueBool_boolMZ, valueString_strMZ, valueString_strMZ]

/-- Roundtrip of one fully populated port check through the model object and
back: the only difference from the original is that an empty-or-nil actions
slice comes back as a nil pointer — exactly the `normPortCheck`
normalization. -/
theorem portCheck_model_roundtrip (x : PortCheckDTO) (hfull : fullPortCheck x = true) :
    portCheckElemToDTO (convertPortCheckToObject x) = some (normPortCheck x) := by
  obtain ⟨ad, iv, tm, acts⟩ := x
  simp only [fullPortCheck, Bool.and_eq_true] at hfull
  obtain ⟨⟨⟨h1, h2⟩, h3⟩, h4⟩ := hfull
  obtain ⟨a0, rfl⟩ := Option.isSome_iff_exists.mp h1
  obtain ⟨i0, rfl⟩ := Option.isSome_iff_exists.mp h2
  obtain ⟨t0, rfl⟩ := Option.isSome_iff_exists.mp h3
  cases acts with
  | none => simp [validActions] at h4
  | some slA =>
    unfold convertPortCheckToObject
    rw [show jsonStructToObject_PortCheck ⟨some a0, some i0, some t0, some slA⟩ true false =
      [("address", encStrPtrMZ (some a0)), ("interval", encStrPtrMZ (some i0)),
       ("timeout", encStrPtrMZ (some t0)),
       ("actions", encSlicePtrMZ GoVal.actionsSlice (some slA))] from by
        simp [jsonStructToObject_PortCheck, jsonFieldPtrStr_tf, jsonFieldPtrSlice_tf]]
    rw [show ((convertKeysToSnake
        [("address", encStrPtrMZ (some a0)), ("interval", encStrPtrMZ (some i0)),
         ("timeout", encStrPtrMZ (some t0)),
         ("actions", encSlicePtrMZ GoVal.actionsSlice (some slA))]).filter
        fun kv => !(kv.1 == "actions")) =
      [("address", encStrPtrMZ (some a0)), ("interval", encStrPtrMZ (some i0)),
       ("timeout", encStrPtrMZ (some t0))] from rfl]
    dsimp only
    rw [show nativeBasicTypedAttributesToTerraform
        [("address", encStrPtrMZ (some a0)), ("interval", encStrPtrMZ (some i0)),
         ("timeout", encStrPtrMZ (some t0))] portCheckAttrTypes =
      [("address", .str (strMZ a0)), ("interval", .str (strMZ i0)),
       ("timeout", .str (strMZ t0))] from by
        simp [nativeBasicTypedAttributesToTerraform, portCheckAttrTypes, List.lookup_cons,
          nbtatString_encStrPtrMZ]]
    cases slA with
    | nilS =>
      show some (PortCheckDTO.mk (some (valueString (strMZ a0))) (some (valueString (strMZ i0)))
        (some (valueString (strMZ t0))) none) = _
      rw [valueString_strMZ, valueString_strMZ, valueString_strMZ]
      rfl
    | elems as =>
      cases as with
      | nil =>
        show some (PortCheckDTO.mk (some (valueString (strMZ a0))) (some (valueString (strMZ i0)))
          (some (valueString (strMZ t0))) none) = _
        rw [valueString_strMZ, valueString_strMZ, valueString_strMZ]
        rfl
      | cons aa as2 =>
        have hall : ∀ y ∈ aa :: as2, fullCheckAction y = true := by
          simp only [validActions, GoSlice.toList, List.all_eq_true] at h4
          exact h4
        have hfm : (List.map convertActionToObject (aa :: as2)).filterMap actionElemToDTO =
            aa :: as2 := by
          rw [filterMap_map_some convertActionToObject actionElemToDTO id _
            (fun y hy => action_model_roundtrip y (hall y hy))]
          exact List.map_id _
        rw [show portCheckElemToDTO ((newObjectValue portCheckAttrTypes
            ([("address", .str (strMZ a0)), ("interval", .str (strMZ i0)),
              ("timeout", .str (strMZ t0))] ++
             [("actions", (goListValueFromAttrs CheckActionModel
               (((some (GoSlice.elems (aa :: as2))).getD .nilS).toList.map
                 convertActionToObject)).toValue)])).toValue) =
          some (attributesToPortChecksStruct
            [("address", .str (strMZ a0)), ("interval", .str (strMZ i0)),
             ("timeout", .str (strMZ t0)),
             ("actions", TFValue.list CheckActionModel
               (.known ((aa :: as2).map convertActionToObject)))]) from rfl]
        unfold attributesToPortChecksStruct
        rw [show List.lookup "actions"
            [("address", TFValue.str (strMZ a0)), ("interval", TFValue.str (strMZ i0)),
             ("timeout", TFValue.str (strMZ t0)),
             ("actions", TFValue.list CheckActionModel
               (.known ((aa :: as2).map convertActionToObject)))] =
          some (TFValue.list CheckActionModel
            (.known ((aa :: as2).map convertActionToObject))) from rfl]
        dsimp only
        rw [show tfElemsOf (TFOpt.known ((aa :: as2).map convertActionToObject)) =
          (aa :: as2).map convertActionToObject from rfl]
        rw [hfm]
        simp only [List.length_cons]
        rw [if_pos (Nat.succ_pos _)]
        show some (PortCheckDTO.mk (some (valueString (strMZ a0)))
          (some (valueString (strMZ i0))) (some (valueString (strMZ t0)))
          (some (.elems (aa :: as2)))) = _
        rw [valueString_strMZ, valueString_strMZ, valueString_strMZ]
        rfl

/-- Roundtrip of one fully populated HTTP check through the model object and
back, up to the `normHTTPCheck` collapse of an empty-or-nil actions slice. -/
theorem httpCheck_model_roundtrip (x : HTTPCheckDTO) (hfull : fullHTTPCheck x = true) :
    httpCheckElemToDTO (convertHTTPCheckToObject x) = some (normHTTPCheck x) := by
  obtain ⟨u, me, bo, es, eib, iv, tm, acts⟩ := x
  simp only [fullHTTPCheck, Bool.and_eq_true] at hfull
  obtain ⟨⟨⟨⟨⟨⟨⟨h1, h2⟩, h3⟩, h4⟩, h5⟩, h6⟩, h7⟩, h8⟩ := hfull
  obtain ⟨u0, rfl⟩ := Option.isSome_iff_exists.mp h1
  obtain ⟨m0, rfl⟩ := Option.isSome_iff_exists.mp h2
  obtain ⟨b0, rfl⟩ := Option.isSome_iff_exists.mp h3
  obtain ⟨e0, rfl⟩ := Option.isSome_iff_exists.mp h4
  obtain ⟨x0, rfl⟩ := Option.isSome_iff_exists.mp h5
  obtain ⟨i0, rfl⟩ := Option.isSome_iff_exists.mp h6
  obtain ⟨t0, rfl⟩ := Option.isSome_iff_exists.mp h7
  cases acts with
  | none => simp [validActions] at h8
  | some slA =>
    unfold convertHTTPCheckToObject
    rw [show jsonStructToObject_HTTPCheck
        ⟨some u0, some m0, some b0, some e0, some x0, some i0, some t0, some slA⟩ true false =
      [("url", encStrPtrMZ (some u0)), ("method", encStrPtrMZ (some m0)),
       ("body", encStrPtrMZ (some b0)), ("expectStatus", GoVal.int32 e0),
       ("expectInBody", encStrPtrMZ (some x0)), ("interval", encStrPtrMZ (some i0)),
       ("timeout", encStrPtrMZ (some t0)),
       ("actions", encSlicePtrMZ GoVal.actionsSlice (some slA))] from by
        simp [jsonStructToObject_HTTPCheck, jsonFieldPtrStr_tf, jsonFieldPtrInt32_tf,
          jsonFieldPtrSlice_tf, encInt32Ptr]]
    rw [show ((convertKeysToSnake
        [("url", encStrPtrMZ (some u0)), ("method", encStrPtrMZ (some m0)),
         ("body", encStrPtrMZ (some b0)), ("expectStatus", GoVal.int32 e0),
         ("expectInBody", encStrPtrMZ (some x0)), ("interval", encStrPtrMZ (some i0)),
         ("timeout", encStrPtrMZ (some t0)),
         ("actions", encSlicePtrMZ GoVal.actionsSlice (some slA))]).filter
        fun kv => !(kv.1 == "actions")) =
      [("url", encStrPtrMZ (some u0)), ("method", encStrPtrMZ (some m0)),
       ("body", encStrPtrMZ (some b0)), ("expect_status", GoVal.int32 e0),
       ("expect_in_body", encStrPtrMZ (some x0)), ("interval", encStrPtrMZ (some i0)),
       ("timeout", encStrPtrMZ (some t0))] from rfl]
    dsimp only
    rw [show nativeBasicTypedAttributesToTerraform
        [("url", encStrPtrMZ (some u0)), ("method", encStrPtrMZ (some m0)),
         ("body", encStrPtrMZ (some b0)), ("expect_status", GoVal.int32 e0),
         ("expect_in_body", encStrPtrMZ (some x0)), ("interval", encStrPtrMZ (some i0)),
         ("timeout", encStrPtrMZ (some t0))] httpCheckAttrTypes =
      [("url", .str (strMZ u0)), ("method", .str (strMZ m0)),
       ("body", .str (strMZ b0)), ("expect_status", .int32 (.known e0)),
       ("expect_in_body", .str (strMZ x0)), ("interval", .str (strMZ i0)),
       ("timeout", .str (strMZ t0))] from by
        simp [nativeBasicTypedAttributesToTerraform, httpCheckAttrTypes, List.lookup_cons,
          nbtatString_encStrPtrMZ, nbtatInt32]]
    cases slA with
    | nilS =>
      show some (HTTPCheckDTO.mk (some (valueString (strMZ u0))) (some (valueString (strMZ m0)))
        (some (valueString (strMZ b0))) (some e0) (some (valueString (strMZ x0)))
        (some (valueString (strMZ i0))) (some (valueString (strMZ t0))) none) = _
      rw [valueString_strMZ, valueString_strMZ, valueString_strMZ, valueString_strMZ,
        valueString_strMZ, valueString_strMZ]
      rfl
    | elems as =>
      cases as with
      | nil =>
        show some (HTTPCheckDTO.mk (some (valueString (strMZ u0))) (some (valueString (strMZ m0)))
          (some (valueString (strMZ b0))) (some e0) (some (valueString (strMZ x0)))
          (some (valueString (strMZ i0))) (some (valueString (strMZ t0))) none) = _
        rw [valueString_strMZ, valueString_strMZ, valueString_strMZ, valueString_strMZ,
          valueString_strMZ, valueString_strMZ]
        rfl
      | cons aa as2 =>
        have hall : ∀ y ∈ aa :: as2, fullCheckAction y = true := by
          simp only [validActions, GoSlice.toList, List.all_eq_true] at h8
          exact h8
        have hfm : (List.map convertActionToObject (aa :: as2)).filterMap actionElemToDTO =
            aa :: as2 := by
          rw [filterMap_map_some convertActionToObject actionElemToDTO id _
            (fun y hy => action_model_roundtrip y (hall y hy))]
          exact List.map_id _
        rw [show httpCheckElemToDTO ((newObjectValue httpCheckAttrTypes
            ([("url", .str (strMZ u0)), ("method", .str (strMZ m0)),
              ("body", .str (strMZ b0)), ("expect_status", .int32 (.known e0)),
              ("expect_in_body", .str (strMZ x0)), ("interval", .str (strMZ i0)),
              ("timeout", .str (strMZ t0))] ++
             [("actions", (goListValueFromAttrs CheckActionModel
               (((some (GoSlice.elems (aa :: as2))).getD .nilS).toList.map
                 convertActionToObject)).toValue)])).toValue) =
          some (attributesToHTTPChecksStruct
            [("url", .str (strMZ u0)), ("method", .str (strMZ m0)),
             ("body", .str (strMZ b0)), ("expect_status", .int32 (.known e0)),
             ("expect_in_body", .str (strMZ x0)), ("interval", .str (strMZ i0)),
             ("timeout", .str (strMZ t0)),
             ("actions", TFValue.list CheckActionModel
               (.known ((aa :: as2).map convertActionToObject)))]) from rfl]
        unfold attributesToHTTPChecksStruct
        rw [show List.lookup "actions"
            [("url", TFValue.str (strMZ u0)), ("method", TFValue.str (strMZ m0)),
             ("body", TFValue.str (strMZ b0)), ("expect_status", TFValue.int32 (.known e0)),
             ("expect_in_body", TFValue.str (strMZ x0)), ("interval", TFValue.str (strMZ i0)),
             ("timeout", TFValue.str (strMZ t0)),
             ("actions", TFValue.list CheckActionModel
               (.known ((aa :: as2).map convertActionToObject)))] =
          some (TFValue.list CheckActionModel
            (.known ((aa :: as2).map convertActionToObject))) from rfl]
        dsimp only
        rw [show tfElemsOf (TFOpt.known ((aa :: as2).map convertActionToObject)) =
          (aa :: as2).map convertActionToObject from rfl]
        rw [hfm]
        simp only [List.length_cons]
        rw [if_pos (Nat.succ_pos _)]
        show some (HTTPCheckDTO.mk (some (valueString (strMZ u0)))
          (some (valueString (strMZ m0))) (some (valueString (strMZ b0))) (some e0)
          (some (valueString (strMZ x0))) (some (valueString (strMZ i0)))
          (some (valueString (strMZ t0))) (some (.elems (aa :: as2)))) = _
        rw [valueString_strMZ, valueString_strMZ, valueString_strMZ, valueString_strMZ,
          valueString_strMZ, valueString_strMZ]
        rfl

/-- Componentwise equality of two `HostConfigDTO`s. -/
theorem hostConfigFieldsEq (a b : HostConfigDTO)
    (had : a.address = b.address) (hpt : a.port = b.port) (hpr : a.protocol = b.protocol)
    (hf1 : a.forwardProtocol = b.forwardProtocol) (hf2 : a.forwardPort = b.forwardPort)
    (hf3 : a.forwardAddress = b.forwardAddress)
    (ha1 : a.allowedProtocols = b.allowedProtocols)
    (ha2 : a.allowedAddresses = b.allowedAddresses)
    (ha3 : a.allowedSourceAddresses = b.allowedSourceAddresses)
    (ha4 : a.allowedPortRanges = b.allowedPortRanges)
    (hlo : a.listenOptions = b.listenOptions)
    (hhc : a.httpChecks = b.httpChecks)
    (hpc : a.portChecks = b.portChecks) : a = b := by
  cases a; cases b; simp_all

/-- The forward-flag write guard (`if ValueBool then ValueBoolPointer`)
inverts `BoolPointerValue` on nil-or-true flags. -/
theorem forwardFlag_roundtrip (v : Option Bool) (hv : validForwardFlag v = true) :
    (if valueBool (boolPointerValue v) then valueBoolPointer (boolPointerValue v) else none) =
      v := by
  cases v with
  | none => rfl
  | some b =>
    cases b with
    | false => simp [validForwardFlag] at hv
    | true => rfl

/-- Projection of the converted model: allowed protocols. -/
theorem convert_allowedProtocols_eq (dto : HostConfigDTO) :
    (convertToZitiResourceModel dto).allowedProtocols =
      match dto.allowedProtocols with
      | some sl => if 0 < sl.length then listValueFromStringGoSlice sl else listNull .string
      | none => listNull .string := rfl

/-- Projection of the converted model: allowed addresses. -/
theorem convert_allowedAddresses_eq (dto : HostConfigDTO) :
    (convertToZitiResourceModel dto).allowedAddresses =
      match dto.allowedAddresses with
      | some sl => if 0 < sl.length then listValueFromStringGoSlice sl else listNull .string
      | none => listNull .string := rfl

/-- Projection of the converted model: allowed source addresses. -/
theorem convert_allowedSourceAddresses_eq (dto : HostConfigDTO) :
    (convertToZitiResourceModel dto).allowedSourceAddresses =
      match dto.allowedSourceAddresses with
      | some sl => if 0 < sl.length then listValueFromStringGoSlice sl else listNull .string
      | none => listNull .string := rfl

/-- Projection of the converted model: allowed port ranges. -/
theorem convert_allowedPortRanges_eq (dto : HostConfigDTO) :
    (convertToZitiResourceModel dto).allowedPortRanges =
      match dto.allowedPortRanges with
      | some sl =>
        goListValueFromAttrs AllowedPortRangeModel (sl.toList.map convertAllowedRangeToObject)
      | none => listNull AllowedPortRangeModel := rfl

/-- Projection of the converted model: listen options. -/
theorem convert_listenOptions_eq (dto : HostConfigDTO) :
    (convertToZitiResourceModel dto).listenOptions =
      match dto.listenOptions with
      | some lo =>
        newObjectValue listenOptionsAttrTypes
          (nativeBasicTypedAttributesToTerraform
            (convertKeysToSnake (jsonStructToObject_ListenOptions lo true false))
            listenOptionsAttrTypes)
      | none => objectNull listenOptionsAttrTypes := rfl

/-- Projection of the converted model: port checks. -/
theorem convert_portChecks_eq (dto : HostConfigDTO) :
    (convertToZitiResourceModel dto).portChecks =
      match dto.portChecks with
      | some sl => goListValueFromAttrs PortCheckModel (sl.toList.map convertPortCheckToObject)
      | none => listNull PortCheckModel := rfl

/-- Projection of the converted model: HTTP checks. -/
theorem convert_httpChecks_eq (dto : HostConfigDTO) :
    (convertToZitiResourceModel dto).httpChecks =
      match dto.httpChecks with
      | some sl => goListValueFromAttrs HTTPCheckModel (sl.toList.map convertHTTPCheckToObject)
      | none => listNull HTTPCheckModel := rfl

/-- Reading back a list of converted port-range objects yields the original
ranges (fields are plain `int32`, so no collapse happens). -/
theorem elementsToListOfStructs_map (xs : List HostConfigAllowedPortsDTO) :
    elementsToListOfStructs (xs.map convertAllowedRangeToObject) = xs := by
  unfold elementsToListOfStructs
  refine (filterMap_map_some convertAllowedRangeToObject _ id xs ?_).trans (List.map_id xs)
  intro y hy
  cases y
  rfl

/-- `normOptSlice` is idempotent. -/
theorem normOptSlice_idem {α : Type} (v : Option (GoSlice α)) :
    normOptSlice (normOptSlice v) = normOptSlice v := by
  rcases v with _ | (_ | (_ | ⟨x, xs⟩)) <;> rfl

/-- `normPortCheck` is idempotent. -/
theorem normPortCheck_idem (p : PortCheckDTO) :
    normPortCheck (normPortCheck p) = normPortCheck p := by
  obtain ⟨a, b, c, ac⟩ := p
  show PortCheckDTO.mk a b c (normOptSlice (normOptSlice ac)) =
    PortCheckDTO.mk a b c (normOptSlice ac)
  rw [normOptSlice_idem]

/-- `normHTTPCheck` is idempotent. -/
theorem normHTTPCheck_idem (p : HTTPCheckDTO) :
    normHTTPCheck (normHTTPCheck p) = normHTTPCheck p := by
  obtain ⟨a, b, c, d, e, f, g, ac⟩ := p
  show HTTPCheckDTO.mk a b c d e f g (normOptSlice (normOptSlice ac)) =
    HTTPCheckDTO.mk a b c d e f g (normOptSlice ac)
  rw [normOptSlice_idem]

/-- Address survives the model roundtrip. -/
theorem roundtrip_address (d : HostConfigDTO) :
    (toHostConfigDTO (convertToZitiResourceModel d)).address = d.address := by
  rw [toHostConfigDTO_address, convert_address]
  exact valueStringPointer_stringPointerValue d.address

/-- Protocol survives the model roundtrip. -/
theorem roundtrip_protocol (d : HostConfigDTO) :
    (toHostConfigDTO (convertToZitiResourceModel d)).protocol = d.protocol := by
  rw [toHostConfigDTO_protocol, convert_protocol]
  exact valueStringPointer_stringPointerValue d.protocol

/-- Port survives the model roundtrip when absent or positive. -/
theorem roundtrip_port (d : HostConfigDTO)
    (h : (match d.port with | none => true | some p => decide (0 < p)) = true) :
    (toHostConfigDTO (convertToZitiResourceModel d)).port = d.port := by
  rw [toHostConfigDTO_port_eq, convert_port]
  rcases hv : d.port with _ | p
  · simp [int32PointerValue, valueInt32]
  · rw [hv] at h
    have h' : decide (0 < p) = true := h
    have hp : 0 < p := of_decide_eq_true h'
    simp [int32PointerValue, valueInt32, valueInt32Pointer, hp]

/-- Forward-protocol survives the model roundtrip on valid flags. -/
theorem roundtrip_forwardProtocol (d : HostConfigDTO)
    (h : validForwardFlag d.forwardProtocol = true) :
    (toHostConfigDTO (convertToZitiResourceModel d)).forwardProtocol = d.forwardProtocol := by
  rw [toHostConfigDTO_forwardProtocol_eq, (convert_forwards d).1]
  exact forwardFlag_roundtrip d.forwardProtocol h

/-- Forward-port survives the model roundtrip on valid flags. -/
theorem roundtrip_forwardPort (d : HostConfigDTO)
    (h : validForwardFlag d.forwardPort = true) :
    (toHostConfigDTO (convertToZitiResourceModel d)).forwardPort = d.forwardPort := by
  rw [toHostConfigDTO_forwardPort_eq, (convert_forwards d).2.1]
  exact forwardFlag_roundtrip d.forwardPort h

/-- Forward-address survives the model roundtrip on valid flags. -/
theorem roundtrip_forwardAddress (d : HostConfigDTO)
    (h : validForwardFlag d.forwardAddress = true) :
    (toHostConfigDTO (convertToZitiResourceModel d)).forwardAddress = d.forwardAddress := by
  rw [toHostConfigDTO_forwardAddress_eq, (convert_forwards d).2.2]
  exact forwardFlag_roundtrip d.forwardAddress h

/-- Allowed protocols survive the model roundtrip up to nil-vs-empty. -/
theorem roundtrip_allowedProtocols (d : HostConfigDTO) :
    normOptSlice (toHostConfigDTO (convertToZitiResourceModel d)).allowedProtocols =
      normOptSlice d.allowedProtocols := by
  rw [toHostConfigDTO_allowedProtocols_eq, convert_allowedProtocols_eq]
  rcases hv : d.allowedProtocols with _ | (_ | (_ | ⟨x, xs⟩))
  · rfl
  · rfl
  · rfl
  · simp only [GoSlice.length, GoSlice.toList, listValueFromStringGoSlice, TFList.elements,
      List.length_cons, Nat.zero_lt_succ, if_true, List.map_cons]
    rw [show TFValue.str (TFOpt.known x) :: List.map (fun s => TFValue.str (TFOpt.known s)) xs =
      List.map (fun s => TFValue.str (TFOpt.known s)) (x :: xs) from rfl]
    rw [elementsToStringArray_map]

/-- Allowed addresses survive the model roundtrip up to nil-vs-empty. -/
theorem roundtrip_allowedAddresses (d : HostConfigDTO) :
    normOptSlice (toHostConfigDTO (convertToZitiResourceModel d)).allowedAddresses =
      normOptSlice d.allowedAddresses := by
  rw [toHostConfigDTO_allowedAddresses_eq, convert_allowedAddresses_eq]
  rcases hv : d.allowedAddresses with _ | (_ | (_ | ⟨x, xs⟩))
  · rfl
  · rfl
  · rfl
  · simp only [GoSlice.length, GoSlice.toList, listValueFromStringGoSlice, TFList.elements,
      List.length_cons, Nat.zero_lt_succ, if_true, List.map_cons]
    rw [show TFValue.str (TFOpt.known x) :: List.map (fun s => TFValue.str (TFOpt.known s)) xs =
      List.map (fun s => TFValue.str (TFOpt.known s)) (x :: xs) from rfl]
    rw [elementsToStringArray_map]

/-- Allowed source addresses survive the model roundtrip up to nil-vs-empty. -/
theorem roundtrip_allowedSourceAddresses (d : HostConfigDTO) :
    normOptSlice (toHostConfigDTO (convertToZitiResourceModel d)).allowedSourceAddresses =
      normOptSlice d.allowedSourceAddresses := by
  rw [toHostConfigDTO_allowedSourceAddresses_eq, convert_allowedSourceAddresses_eq]
  rcases hv : d.allowedSourceAddresses with _ | (_ | (_ | ⟨x, xs⟩))
  · rfl
  · rfl
  · rfl
  · simp only [GoSlice.length, GoSlice.toList, listValueFromStringGoSlice, TFList.elements,
      List.length_cons, Nat.zero_lt_succ, if_true, List.map_cons]
    rw [show TFValue.str (TFOpt.known x) :: List.map (fun s => TFValue.str (TFOpt.known s)) xs =
      List.map (fun s => TFValue.str (TFOpt.known s)) (x :: xs) from rfl]
    rw [elementsToStringArray_map]

/-- `isEmpty` commutes with `map`. -/
theorem isEmpty_map {α β : Type} (f : α → β) (l : List α) :
    (l.map f).isEmpty = l.isEmpty := by
  cases l <;> rfl

/-- Allowed port ranges survive the model roundtrip up to nil-vs-empty. -/
theorem roundtrip_allowedPortRanges (d : HostConfigDTO) :
    normOptSlice (toHostConfigDTO (convertToZitiResourceModel d)).allowedPortRanges =
      normOptSlice d.allowedPortRanges := by
  rw [toHostConfigDTO_allowedPortRanges_eq, convert_allowedPortRanges_eq]
  rcases hv : d.allowedPortRanges with _ | (_ | (_ | ⟨x, xs⟩))
  · rfl
  · rfl
  · rfl
  · simp only [GoSlice.toList, goListValueFromAttrs, isEmpty_map, List.isEmpty_cons,
      Bool.false_eq_true, if_false, TFList.elements, elementsToListOfStructs_map,
      List.length_map, List.length_cons, Nat.zero_lt_succ, if_true]

/-- Listen options survive the model roundtrip up to nil-vs-zero-struct. -/
theorem roundtrip_listenOptions (d : HostConfigDTO)
    (h : (match d.listenOptions with
          | none => true
          | some lo => fullListenOptions lo) = true) :
    (match (toHostConfigDTO (convertToZitiResourceModel d)).listenOptions with
     | some lo => if listenOptionsIsZero lo then none else some lo
     | none => none) =
    (match d.listenOptions with
     | some lo => if listenOptionsIsZero lo then none else some lo
     | none => none) := by
  rw [toHostConfigDTO_listenOptions_eq, convert_listenOptions_eq]
  rcases hv : d.listenOptions with _ | lo
  · rfl
  · have hfull : fullListenOptions lo = true := by rw [hv] at h; exact h
    dsimp only
    rw [listenOptions_model_roundtrip lo hfull]

/-- Port checks survive the model roundtrip up to normalization. -/
theorem roundtrip_portChecks (d : HostConfigDTO)
    (h : (match d.portChecks with
          | none => true
          | some sl => sl.toList.all fullPortCheck) = true) :
    (normOptSlice (toHostConfigDTO (convertToZitiResourceModel d)).portChecks).map
        (GoSlice.mapElems normPortCheck) =
      (normOptSlice d.portChecks).map (GoSlice.mapElems normPortCheck) := by
  rw [toHostConfigDTO_portChecks_eq, convert_portChecks_eq]
  rcases hv : d.portChecks with _ | (_ | (_ | ⟨x, xs⟩))
  · rfl
  · rfl
  · rfl
  · rw [hv] at h
    have hall : ∀ y ∈ x :: xs, fullPortCheck y = true := by
      simp only [GoSlice.toList, List.all_eq_true] at h
      exact h
    have hfm : List.filterMap portCheckElemToDTO ((x :: xs).map convertPortCheckToObject) =
        (x :: xs).map normPortCheck :=
      filterMap_map_some convertPortCheckToObject portCheckElemToDTO normPortCheck _
        (fun y hy => portCheck_model_roundtrip y (hall y hy))
    show Option.map (GoSlice.mapElems normPortCheck) (normOptSlice (some (goSliceOfAppends
        (List.filterMap portCheckElemToDTO ((x :: xs).map convertPortCheckToObject))))) =
      Option.map (GoSlice.mapElems normPortCheck)
        (normOptSlice (some (GoSlice.elems (x :: xs))))
    rw [hfm]
    show some (GoSlice.elems (List.map normPortCheck ((x :: xs).map normPortCheck))) =
      some (GoSlice.elems (List.map normPortCheck (x :: xs)))
    rw [List.map_map]
    rw [show normPortCheck ∘ normPortCheck = normPortCheck from funext normPortCheck_idem]

/-- HTTP checks survive the model roundtrip up to normalization. -/
theorem roundtrip_httpChecks (d : HostConfigDTO)
    (h : (match d.httpChecks with
          | none => true
          | some sl => sl.toList.all fullHTTPCheck) = true) :
    (normOptSlice (toHostConfigDTO (convertToZitiResourceModel d)).httpChecks).map
        (GoSlice.mapElems normHTTPCheck) =
      (normOptSlice d.httpChecks).map (GoSlice.mapElems normHTTPCheck) := by
  rw [toHostConfigDTO_httpChecks_eq, convert_httpChecks_eq]
  rcases hv : d.httpChecks with _ | (_ | (_ | ⟨x, xs⟩))
  · rfl
  · rfl
  · rfl
  · rw [hv] at h
    have hall : ∀ y ∈ x :: xs, fullHTTPCheck y = true := by
      simp only [GoSlice.toList, List.all_eq_true] at h
      exact h
    have hfm : List.filterMap httpCheckElemToDTO ((x :: xs).map convertHTTPCheckToObject) =
        (x :: xs).map normHTTPCheck :=
      filterMap_map_some convertHTTPCheckToObject httpCheckElemToDTO normHTTPCheck _
        (fun y hy => httpCheck_model_roundtrip y (hall y hy))
    show Option.map (GoSlice.mapElems normHTTPCheck) (normOptSlice (some (goSliceOfAppends
        (List.filterMap httpCheckElemToDTO ((x :: xs).map convertHTTPCheckToObject))))) =
      Option.map (GoSlice.mapElems normHTTPCheck)
        (normOptSlice (some (GoSlice.elems (x :: xs))))
    rw [hfm]
    show some (GoSlice.elems (List.map normHTTPCheck ((x :: xs).map normHTTPCheck))) =
      some (GoSlice.elems (List.map normHTTPCheck (x :: xs)))
    rw [List.map_map]
    rw [show normHTTPCheck ∘ normHTTPCheck = normHTTPCheck from funext normHTTPCheck_idem]

/-- C1 (amended): for every host-config payload that is valid in the wire
format's sense — forward flags absent or true, port absent or positive,
listen options absent or fully populated, and every health check fully
populated — converting to the declarative resource model with
`ConvertToZitiResourceModel` and back with `ToHostConfigDTO` reproduces the
payload after normalizing absent-vs-empty representations (nil pointer vs
empty list/struct) on both sides. -/
theorem hostconfig_roundtrip (d : HostConfigDTO) (h : validHostConfigDTO d = true) :
    normalizeHostConfigDTO (toHostConfigDTO (convertToZitiResourceModel d)) =
      normalizeHostConfigDTO d := by
  simp only [validHostConfigDTO, Bool.and_eq_true] at h
  obtain ⟨⟨⟨⟨⟨⟨h1, h2⟩, h3⟩, h4⟩, h5⟩, h6⟩, h7⟩ := h
  refine hostConfigFieldsEq _ _ ?_ ?_ ?_ ?_ ?_ ?_ ?_ ?_ ?_ ?_ ?_ ?_ ?_
  · exact roundtrip_address d
  · exact roundtrip_port d h4
  · exact roundtrip_protocol d
  · exact roundtrip_forwardProtocol d h1
  · exact roundtrip_forwardPort d h2
  · exact roundtrip_forwardAddress d h3
  · exact roundtrip_allowedProtocols d
  · exact roundtrip_allowedAddresses d
  · exact roundtrip_allowedSourceAddresses d
  · exact roundtrip_allowedPortRanges d
  · exact roundtrip_listenOptions d h5
  · exact roundtrip_httpChecks d h6
  · exact roundtrip_portChecks d h7

/-- C1 amended-law witness: the round trip holds at a concrete valid payload
exercising every optional branch. -/
theorem hostconfig_roundtrip_witness :
    validHostConfigDTO sampleValidHostConfig = true ∧
    normalizeHostConfigDTO (toHostConfigDTO (convertToZitiResourceModel sampleValidHostConfig)) =
      normalizeHostConfigDTO sampleValidHostConfig :=
  ⟨by decide, hostconfig_roundtrip sampleValidHostConfig (by decide)⟩

end Ziti
